import Mathlib

/-!
Verification of the hybrid photorealistic/toon deferred renderer.

The development shallowly embeds the renderer's CPU-side shadow-map
lifecycle (Renderer.cpp), the light registry (LightManager), and the
GLSL fragment shaders (hybrid cel lighting, edge detection, composite).
Float arithmetic is modelled exactly: ℚ where only field operations and
floor occur, ℝ where square roots, powers or trigonometry are involved.
GPU texture fetches are modelled as function-valued parameters (a
sampler is a function from coordinates to texel values); GPU object
handles (FBO and texture ids) are omitted from the embedded state.
-/

namespace HybridToon

/-! ### GLSL scalar primitives over ℚ (exact model of float arithmetic) -/

/-- GLSL `mix(x, y, a) = x*(1-a) + y*a`. -/
def glslMix (x y a : ℚ) : ℚ := x * (1 - a) + y * a

/-- GLSL `clamp(x, lo, hi) = min(max(x, lo), hi)`. -/
def glslClamp (x lo hi : ℚ) : ℚ := min (max x lo) hi

/-- The shadow-weighting step shared by `calculateDirectionalSpotShadow`
(line 118 of the lighting shader) and `calculatePointShadow` (line 163):
`shadow = mix(1.0, 1.0 - shadow, 1.0 - shadowIntensity)`. -/
def shadowBlend (shadow shadowIntensity : ℚ) : ℚ :=
  glslMix 1 (1 - shadow) (1 - shadowIntensity)

/-- From the lighting shader: `quantizeDiffuseIntensity(intensity, bands)`
returns `intensity` unchanged when `bands <= 1`, otherwise clamps the
intensity to [0,1] and returns `floor(intensity*bands + 0.5) / bands`. -/
def quantizeDiffuseIntensity (intensity : ℚ) (bands : ℤ) : ℚ :=
  if bands ≤ 1 then intensity
  else
    let clamped := glslClamp intensity 0 1
    ((⌊clamped * (bands : ℚ) + 1/2⌋ : ℤ) : ℚ) / (bands : ℚ)

/-- From the lighting shader: `quantizeSpecularIntensity` maps a clamped
intensity to one of the three levels 0, 0.8, 0.95 via two thresholds. -/
def quantizeSpecularIntensity (intensity threshold1 threshold2 : ℚ) : ℚ :=
  let i := glslClamp intensity 0 1
  let t1 := glslClamp threshold1 0 1
  let t2 := glslClamp threshold2 (t1 + 1/100) 1
  if i < t1 then 0 else if i < t2 then 4/5 else 19/20

/-! ### Rational 3-vectors for the composite stage -/

structure Vec3Q where
  x : ℚ
  y : ℚ
  z : ℚ
deriving DecidableEq

/-- Componentwise GLSL `mix` on vec3. -/
def mix3 (a b : Vec3Q) (t : ℚ) : Vec3Q :=
  ⟨glslMix a.x b.x t, glslMix a.y b.y t, glslMix a.z b.z t⟩

/-- Componentwise scaling of a vec3 by a scalar. -/
def scale3 (v : Vec3Q) (s : ℚ) : Vec3Q := ⟨v.x * s, v.y * s, v.z * s⟩

/-- Final line of the edge-detection shader (edge_detection.frag:188):
`FragColor = vec4(edgeColor * edge, edge)` — the stored rgb is the
configured outline color premultiplied by the edge intensity. -/
def edgeFragColor (edgeColor : Vec3Q) (edge : ℚ) : Vec3Q × ℚ :=
  (scale3 edgeColor edge, edge)

/-- Body of composite.frag: the lit-scene texel is blended with the edge
texel, `mix(lighting, edge.rgb, edge.a)`, only when outlining is on. -/
def compositeMain (lighting edgeRGB : Vec3Q) (edgeA : ℚ)
    (enableOutlining : Bool) : Vec3Q :=
  if enableOutlining then mix3 lighting edgeRGB edgeA else lighting

/-! ### Theorems for claims C1, C5, C6 -/

/-- Claim C1 as stated is false: at `shadowIntensity = 0` the blend of a
raw shadow of 1 yields 0, not 1, and at `shadowIntensity = 1` it yields
1, not `1 - rawShadow = 0` — the code maps intensity 0 to full raw
shadow and intensity 1 to no shadow, the reverse of the claim. -/
theorem shadowBlend_claim_counterexample :
    shadowBlend 1 0 = 0 ∧ (0 : ℚ) ≠ 1 ∧
    shadowBlend 1 1 = 1 ∧ (1 : ℚ) ≠ 1 - 1 := by
  refine ⟨?_, by norm_num, ?_, by norm_num⟩ <;>
    simp [shadowBlend, glslMix]

/-- Claim C1 (amended): for every raw shadow value, the blend step
returns `1 - rawShadow` at `shadowIntensity = 0` and returns 1
(shadow invisible) at `shadowIntensity = 1`; in general it equals
`1 - rawShadow * (1 - shadowIntensity)`. -/
theorem shadowBlend_intensity_bounds (raw intensity : ℚ) :
    shadowBlend raw 0 = 1 - raw ∧
    shadowBlend raw 1 = 1 ∧
    shadowBlend raw intensity = 1 - raw * (1 - intensity) := by
  refine ⟨?_, ?_, ?_⟩ <;> (simp [shadowBlend, glslMix]; try ring)

/-- Claim C5: diffuse quantization returns `round(x*N)/N` for `N ≥ 2`
bands on clamped intensities, maps 0.73 with 5 bands to 0.8, and is the
identity at a single band. -/
theorem quantizeDiffuseIntensity_spec :
    quantizeDiffuseIntensity (73/100) 5 = 4/5 ∧
    (∀ x : ℚ, quantizeDiffuseIntensity x 1 = x) ∧
    (∀ (x : ℚ) (n : ℤ), 0 ≤ x → x ≤ 1 → 2 ≤ n →
      quantizeDiffuseIntensity x n = round (x * (n : ℚ)) / (n : ℚ)) := by
  refine ⟨?_, fun x => by simp [quantizeDiffuseIntensity], ?_⟩
  · have h4 : ⌊glslClamp (73/100 : ℚ) 0 1 * (5 : ℚ) + 1/2⌋ = 4 := by
      rw [show glslClamp (73/100 : ℚ) 0 1 = 73/100 by norm_num [glslClamp]]
      norm_num [Int.floor_eq_iff]
    norm_num [quantizeDiffuseIntensity, h4]
  intro x n hx0 hx1 hn
  have hnot : ¬ n ≤ 1 := by omega
  have hcl : glslClamp x 0 1 = x := by
    simp [glslClamp, max_eq_left hx0, min_eq_left hx1]
  simp [quantizeDiffuseIntensity, hnot, hcl, round_eq]

/-- Witness for the quantization claim: instantiates the banded case at
intensity 1/2 with 4 bands, where `round(2) / 4 = 1/2`. -/
theorem quantizeDiffuseIntensity_spec_witness :
    quantizeDiffuseIntensity (1/2) 4 = round ((1/2 : ℚ) * (4 : ℚ)) / (4 : ℚ) :=
  quantizeDiffuseIntensity_spec.2.2 (1/2) 4 (by norm_num) (by norm_num) (by norm_num)

/-- Claim C6 as stated is false: because the edge pass stores the
outline color premultiplied by the edge intensity, compositing a white
lit pixel with a white configured outline at edge alpha 1/2 yields
3/4, whereas `mix(lit, edgeColor, edgeAlpha)` with the configured
outline color would yield 1. -/
theorem composite_configured_color_counterexample :
    compositeMain ⟨1,1,1⟩ (edgeFragColor ⟨1,1,1⟩ (1/2)).1
        (edgeFragColor ⟨1,1,1⟩ (1/2)).2 true = ⟨3/4, 3/4, 3/4⟩ ∧
    mix3 ⟨1,1,1⟩ ⟨1,1,1⟩ (1/2) = ⟨1,1,1⟩ ∧
    (⟨3/4, 3/4, 3/4⟩ : Vec3Q) ≠ ⟨1,1,1⟩ := by
  refine ⟨?_, ?_, ?_⟩
  · simp only [compositeMain, edgeFragColor, mix3, scale3, glslMix, if_true]
    norm_num
  · simp only [mix3, glslMix]
    norm_num
  · intro h
    have := congrArg Vec3Q.x h
    norm_num at this

/-- Claim C6 (amended): with outlining enabled the composite pass
outputs `mix(lit, edgeColor·edgeAlpha, edgeAlpha)` — the lit color
blended toward the premultiplied outline color stored in the edge
buffer; with outlining disabled it outputs the lit color unmodified. -/
theorem composite_blend_premultiplied (lighting edgeColor : Vec3Q) (edge : ℚ) :
    compositeMain lighting (edgeFragColor edgeColor edge).1
        (edgeFragColor edgeColor edge).2 true
      = mix3 lighting (scale3 edgeColor edge) edge ∧
    (∀ (rgb : Vec3Q) (a : ℚ), compositeMain lighting rgb a false = lighting) := by
  exact ⟨rfl, fun rgb a => rfl⟩

/-! ### Real 3-vectors (glm::vec3) -/

noncomputable section

structure Vec3 where
  x : ℝ
  y : ℝ
  z : ℝ

def addV (a b : Vec3) : Vec3 := ⟨a.x + b.x, a.y + b.y, a.z + b.z⟩

def subV (a b : Vec3) : Vec3 := ⟨a.x - b.x, a.y - b.y, a.z - b.z⟩

def negV (a : Vec3) : Vec3 := ⟨-a.x, -a.y, -a.z⟩

def smulV (s : ℝ) (a : Vec3) : Vec3 := ⟨s * a.x, s * a.y, s * a.z⟩

def dotV (a b : Vec3) : ℝ := a.x * b.x + a.y * b.y + a.z * b.z

def crossV (a b : Vec3) : Vec3 :=
  ⟨a.y * b.z - a.z * b.y, a.z * b.x - a.x * b.z, a.x * b.y - a.y * b.x⟩

/-- glm `length(v) = sqrt(dot(v, v))`. -/
def lengthV (a : Vec3) : ℝ := Real.sqrt (dotV a a)

/-- glm `normalize(v) = v / length(v)` (componentwise division). -/
def normalizeV (a : Vec3) : Vec3 :=
  ⟨a.x / lengthV a, a.y / lengthV a, a.z / lengthV a⟩

/-! ### Light data model (src/lighting/Light.h) -/

inductive LightType where
  | directional
  | point
  | spot
deriving DecidableEq

structure Light where
  type : LightType
  position : Vec3
  direction : Vec3
  color : Vec3
  intensity : ℝ
  constant : ℝ
  linear : ℝ
  quadratic : ℝ
  cutOff : ℝ
  outerCutOff : ℝ
  castShadows : Bool
  isStatic : Bool
  flicker : Bool
  baseIntensity : ℝ
  baseColor : Vec3

/-- The default `Light()` constructor of Light.h. -/
def defaultLight : Light where
  type := .point
  position := ⟨0, 0, 0⟩
  direction := ⟨0, -1, 0⟩
  color := ⟨1, 1, 1⟩
  intensity := 1
  constant := 1
  linear := 9/100
  quadratic := 4/125
  cutOff := 25/2
  outerCutOff := 15
  castShadows := true
  isStatic := false
  flicker := false
  baseIntensity := 1
  baseColor := ⟨1, 1, 1⟩

/-- The `Light::createDirectionalLight` factory: normalizes the given
direction and enables shadow casting. -/
def createDirectionalLight (direction color : Vec3) (intensity : ℝ) : Light :=
  { defaultLight with
    type := .directional
    direction := normalizeV direction
    color := color
    intensity := intensity
    baseIntensity := intensity
    baseColor := color
    castShadows := true }

/-- The `Light::createPointLight` factory: leaves the default (unit)
direction untouched. -/
def createPointLight (position color : Vec3) (intensity : ℝ) : Light :=
  { defaultLight with
    type := .point
    position := position
    color := color
    intensity := intensity
    baseIntensity := intensity
    baseColor := color }

/-- The `Light::createSpotLight` factory: normalizes the given direction. -/
def createSpotLight (position direction color : Vec3)
    (cutOff outerCutOff intensity : ℝ) : Light :=
  { defaultLight with
    type := .spot
    position := position
    direction := normalizeV direction
    color := color
    intensity := intensity
    baseIntensity := intensity
    baseColor := color
    cutOff := cutOff
    outerCutOff := outerCutOff }

/-! ### Light registry (LightManager) -/

def MAX_LIGHTS : ℕ := 32

/-- `LightManager::addLight`: a no-op once the registry holds `MAX_LIGHTS`. -/
def addLight (light : Light) (lights : List Light) : List Light :=
  if lights.length < MAX_LIGHTS then lights ++ [light] else lights

/-- `LightManager::removeLight`: bounds-checked erase that shifts the tail. -/
def removeLight (index : ℕ) (lights : List Light) : List Light :=
  if index < lights.length then lights.eraseIdx index else lights

/-- `LightManager::updateLight`: bounds-checked in-place replacement; the
incoming light is copied verbatim (no renormalization of `direction`). -/
def updateLight (index : ℕ) (light : Light) (lights : List Light) : List Light :=
  if index < lights.length then lights.set index light else lights

/-- The GUI direction widget (`ImGui::SliderFloat3("Direction", ...)`,
part_000:173-175) writes the three direction components of the stored
light directly; no normalization follows the edit. -/
def guiSetDirection (light : Light) (v : Vec3) : Light :=
  { light with direction := v }

/-! ### Shadow resource manager state (Renderer.h / Renderer.cpp) -/

structure ShadowParams where
  shadowMapSize : ℤ
  cubeShadowMapSize : ℤ
  shadowBias : ℝ
  shadowNormalBias : ℝ
  shadowPCFSamples : ℤ
  shadowIntensity : ℝ
  enablePCF : Bool
  orthoSize : ℝ
  nearPlane : ℝ
  farPlane : ℝ

/-- Default-constructed `ShadowParams` of Renderer.h. -/
def defaultShadowParams : ShadowParams where
  shadowMapSize := 2048
  cubeShadowMapSize := 1024
  shadowBias := 1/200
  shadowNormalBias := 1/50
  shadowPCFSamples := 2
  shadowIntensity := 7/10
  enablePCF := true
  orthoSize := 20
  nearPlane := 1/2
  farPlane := 50

/-- Per-slot `ShadowMapData` bookkeeping state. The GPU object handles
(FBO, depth texture, cubemap) and the cached light-space matrices are
not part of the embedded state; `isActive` tracks whether GPU resources
are currently allocated. -/
structure ShadowMapData where
  isActive : Bool
  type : LightType
  size : ℤ
  hasRendered : Bool
deriving DecidableEq

def MAX_SHADOW_CASTING_LIGHTS : ℕ := 8

/-- Resolution a light requires from the current parameters:
cubemap resolution for point lights, the 2D resolution otherwise. -/
def requiredShadowSize (light : Light) (p : ShadowParams) : ℤ :=
  if light.type = .point then p.cubeShadowMapSize else p.shadowMapSize

/-- `Renderer::cleanupShadowMap`: frees GPU objects and resets
`isActive` and `hasRendered`; `type` and `size` are left as they were. -/
def cleanupShadowMap (d : ShadowMapData) : ShadowMapData :=
  { d with isActive := false, hasRendered := false }

/-- Result of reconciling one slot: the new slot state plus the number
of GPU allocations and teardowns the step performed. -/
structure SlotStep where
  slot : ShadowMapData
  allocs : ℕ
  cleanups : ℕ
deriving DecidableEq

/-- Body of the per-light loop of `Renderer::updateShadowMaps`
(Renderer.cpp:184-252): reallocate when the slot is inactive, the light
type changed, the required resolution changed, or the light no longer
casts shadows; a non-casting light is torn down and skipped. -/
def reconcileSlot (light : Light) (p : ShadowParams) (d : ShadowMapData) : SlotStep :=
  if d.isActive = false ∨ d.type ≠ light.type ∨
      d.size ≠ requiredShadowSize light p ∨ light.castShadows = false then
    let cleaned := if d.isActive then cleanupShadowMap d else d
    let cleanups : ℕ := if d.isActive then 1 else 0
    if light.castShadows = false then ⟨cleaned, 0, cleanups⟩
    else
      ⟨{ cleaned with
          type := light.type
          size := requiredShadowSize light p
          isActive := true }, 1, cleanups⟩
  else ⟨d, 0, 0⟩

/-- Tail loop of `Renderer::updateShadowMaps` (Renderer.cpp:255-259):
slots beyond the current light count are torn down if active. -/
def cleanupUnusedSlot (d : ShadowMapData) : SlotStep :=
  if d.isActive then ⟨cleanupShadowMap d, 0, 1⟩ else ⟨d, 0, 0⟩

/-- One slot of `Renderer::updateShadowMaps`: slots with an owning light
(index below `min(lights.size(), MAX_SHADOW_CASTING_LIGHTS)`) are
reconciled against that light, the rest are torn down. -/
def updateShadowMapsSlot (lights : List Light) (p : ShadowParams)
    (slots : Fin MAX_SHADOW_CASTING_LIGHTS → ShadowMapData)
    (i : Fin MAX_SHADOW_CASTING_LIGHTS) : SlotStep :=
  if h : (i : ℕ) < min lights.length MAX_SHADOW_CASTING_LIGHTS then
    reconcileSlot (lights.get ⟨i, lt_of_lt_of_le h (Nat.min_le_left _ _)⟩) p (slots i)
  else cleanupUnusedSlot (slots i)

/-- `Renderer::updateShadowMaps` over the whole slot array: the new
array together with the total number of GPU allocations and teardowns
performed in the frame. -/
def updateShadowMaps (lights : List Light) (p : ShadowParams)
    (slots : Fin MAX_SHADOW_CASTING_LIGHTS → ShadowMapData) :
    (Fin MAX_SHADOW_CASTING_LIGHTS → ShadowMapData) × ℕ × ℕ :=
  (fun i => (updateShadowMapsSlot lights p slots i).slot,
   ∑ i : Fin MAX_SHADOW_CASTING_LIGHTS, (updateShadowMapsSlot lights p slots i).allocs,
   ∑ i : Fin MAX_SHADOW_CASTING_LIGHTS, (updateShadowMapsSlot lights p slots i).cleanups)

/-- One slot of `Renderer::shadowMapPass` (Renderer.cpp:263-288):
inactive slots are skipped; a static light whose slot has already
rendered is skipped; otherwise the shadow map is rendered and
`hasRendered` is set. `shadersOk` models the early return when either
shadow shader failed to compile. The boolean result records whether the
slot was rendered this frame. -/
def shadowPassSlot (shadersOk : Bool) (lights : List Light)
    (slots : Fin MAX_SHADOW_CASTING_LIGHTS → ShadowMapData)
    (i : Fin MAX_SHADOW_CASTING_LIGHTS) : ShadowMapData × Bool :=
  if shadersOk = false then (slots i, false)
  else if h : (i : ℕ) < min lights.length MAX_SHADOW_CASTING_LIGHTS then
    let light := lights.get ⟨i, lt_of_lt_of_le h (Nat.min_le_left _ _)⟩
    let d := slots i
    if d.isActive = false then (d, false)
    else if light.isStatic = true ∧ d.hasRendered = true then (d, false)
    else ({ d with hasRendered := true }, true)
  else (slots i, false)

/-! ### Fixpoint and caching lemmas for the shadow lifecycle -/

lemma reconcileSlot_fixpoint (light : Light) (p : ShadowParams) (d : ShadowMapData) :
    reconcileSlot light p (reconcileSlot light p d).slot
      = ⟨(reconcileSlot light p d).slot, 0, 0⟩ := by
  by_cases hcond : d.isActive = false ∨ d.type ≠ light.type ∨
      d.size ≠ requiredShadowSize light p ∨ light.castShadows = false
  · by_cases hcast : light.castShadows = false
    · by_cases hact : d.isActive
      · have hinner : reconcileSlot light p d = ⟨cleanupShadowMap d, 0, 1⟩ := by
          simp [reconcileSlot, hcond, hcast, hact]
        rw [hinner]
        simp [reconcileSlot, cleanupShadowMap, hcast]
      · have hact2 : d.isActive = false := by simpa using hact
        have hinner : reconcileSlot light p d = ⟨d, 0, 0⟩ := by
          simp [reconcileSlot, hcond, hcast, hact2]
        rw [hinner]
        simp [reconcileSlot, hcast, hact2]
    · have hinner : reconcileSlot light p d =
          ⟨{ (if d.isActive then cleanupShadowMap d else d) with
              type := light.type
              size := requiredShadowSize light p
              isActive := true },
            1, if d.isActive then 1 else 0⟩ := by
        simp only [reconcileSlot, if_pos hcond, if_neg hcast]
      rw [hinner]
      have hcast2 : light.castShadows = true := by simpa using hcast
      simp [reconcileSlot, hcast2]
  · have hinner : reconcileSlot light p d = ⟨d, 0, 0⟩ := by
      simp only [reconcileSlot, if_neg hcond]
    rw [hinner]
    simp only [reconcileSlot, if_neg hcond]

lemma cleanupUnusedSlot_fixpoint (d : ShadowMapData) :
    cleanupUnusedSlot (cleanupUnusedSlot d).slot
      = ⟨(cleanupUnusedSlot d).slot, 0, 0⟩ := by
  by_cases hact : d.isActive
  · simp [cleanupUnusedSlot, hact, cleanupShadowMap]
  · simp [cleanupUnusedSlot, hact]

/-- Claim C8: shadow reconciliation is idempotent — for any registry,
parameter set, and slot-array state, re-running `updateShadowMaps` on
the slot array produced by one run changes nothing and performs zero
GPU allocations and zero teardowns. -/
theorem updateShadowMaps_idempotent (lights : List Light) (p : ShadowParams)
    (slots : Fin MAX_SHADOW_CASTING_LIGHTS → ShadowMapData) :
    updateShadowMaps lights p (updateShadowMaps lights p slots).1
      = ((updateShadowMaps lights p slots).1, 0, 0) := by
  have hslot : ∀ i, updateShadowMapsSlot lights p (updateShadowMaps lights p slots).1 i
      = ⟨(updateShadowMapsSlot lights p slots i).slot, 0, 0⟩ := by
    intro i
    by_cases h : (i : ℕ) < min lights.length MAX_SHADOW_CASTING_LIGHTS
    · simp only [updateShadowMapsSlot, updateShadowMaps, dif_pos h]
      exact reconcileSlot_fixpoint _ p _
    · simp only [updateShadowMapsSlot, updateShadowMaps, dif_neg h]
      exact cleanupUnusedSlot_fixpoint _
  unfold updateShadowMaps
  refine Prod.ext ?_ (Prod.ext ?_ ?_)
  · funext i
    show (updateShadowMapsSlot lights p (updateShadowMaps lights p slots).1 i).slot = _
    rw [hslot i]
  · show (∑ i : Fin MAX_SHADOW_CASTING_LIGHTS,
        (updateShadowMapsSlot lights p (updateShadowMaps lights p slots).1 i).allocs) = 0
    refine Finset.sum_eq_zero fun i _ => ?_
    rw [hslot i]
  · show (∑ i : Fin MAX_SHADOW_CASTING_LIGHTS,
        (updateShadowMapsSlot lights p (updateShadowMaps lights p slots).1 i).cleanups) = 0
    refine Finset.sum_eq_zero fun i _ => ?_
    rw [hslot i]

lemma reconcileSlot_noop (light : Light) (p : ShadowParams) (d : ShadowMapData)
    (hact : d.isActive = true) (htype : d.type = light.type)
    (hsize : d.size = requiredShadowSize light p)
    (hcast : light.castShadows = true) :
    reconcileSlot light p d = ⟨d, 0, 0⟩ := by
  have hcond : ¬(d.isActive = false ∨ d.type ≠ light.type ∨
      d.size ≠ requiredShadowSize light p ∨ light.castShadows = false) := by
    simp [hact, htype, hsize, hcast]
  simp only [reconcileSlot, if_neg hcond]

lemma reconcileSlot_alloc (light : Light) (p : ShadowParams) (d : ShadowMapData)
    (hinv : d.isActive = false → d.hasRendered = false)
    (hcond : d.isActive = false ∨ d.type ≠ light.type ∨
      d.size ≠ requiredShadowSize light p)
    (hcast : light.castShadows = true) :
    (reconcileSlot light p d).slot
      = ⟨true, light.type, requiredShadowSize light p, false⟩ := by
  have hcond2 : d.isActive = false ∨ d.type ≠ light.type ∨
      d.size ≠ requiredShadowSize light p ∨ light.castShadows = false := by
    tauto
  have hcast2 : ¬ light.castShadows = false := by simp [hcast]
  simp only [reconcileSlot, if_pos hcond2, if_neg hcast2]
  by_cases hact : d.isActive
  · simp [hact, cleanupShadowMap]
  · have : d.isActive = false := by simpa using hact
    simp [this, hinv this]

/-- After reconciliation an inactive slot never carries a stale
`hasRendered` flag (the state invariant used by the caching claim). -/
lemma reconcileSlot_inv (light : Light) (p : ShadowParams) (d : ShadowMapData)
    (hinv : d.isActive = false → d.hasRendered = false) :
    (reconcileSlot light p d).slot.isActive = false →
      (reconcileSlot light p d).slot.hasRendered = false := by
  intro h
  by_cases hcond : d.isActive = false ∨ d.type ≠ light.type ∨
      d.size ≠ requiredShadowSize light p ∨ light.castShadows = false
  · by_cases hcast : light.castShadows = false
    · by_cases hact : d.isActive
      · simp [reconcileSlot, hcond, hcast, hact, cleanupShadowMap]
      · have hact2 : d.isActive = false := by simpa using hact
        simp only [reconcileSlot, if_pos hcond, if_pos hcast]
        simp [hact2, hinv hact2]
    · exfalso
      rw [reconcileSlot, if_pos hcond, if_neg hcast] at h
      simp at h
  · simp only [reconcileSlot, if_neg hcond] at h ⊢
    exact hinv h

lemma cleanupUnusedSlot_inv (d : ShadowMapData)
    (hinv : d.isActive = false → d.hasRendered = false) :
    (cleanupUnusedSlot d).slot.isActive = false →
      (cleanupUnusedSlot d).slot.hasRendered = false := by
  unfold cleanupUnusedSlot
  split_ifs with h1
  · simp [cleanupShadowMap]
  · exact hinv

/-- Claim C2: static-light shadow caching. For a light at slot `i`
(within the shadow ceiling): (a) if the light is static, casts shadows,
and its slot is active, already rendered, and matches the light's type
and required resolution (no light or shadow-parameter change), then
reconciliation leaves the slot untouched and the shadow pass skips it;
(b) if the slot is (re)allocated — it was inactive or its type or
required resolution changed — `hasRendered` comes out false and the
next shadow pass renders it; (c) a non-static light with an active slot
is always re-rendered. The hypothesis `hinv` in (b) is the state
invariant (inactive slots carry no stale `hasRendered`), established
for reachable states by `reconcileSlot_inv` and `cleanupUnusedSlot_inv`. -/
theorem staticShadowCaching (lights : List Light) (p : ShadowParams)
    (slots : Fin MAX_SHADOW_CASTING_LIGHTS → ShadowMapData)
    (i : Fin MAX_SHADOW_CASTING_LIGHTS) (l : Light)
    (hi : (i : ℕ) < min lights.length MAX_SHADOW_CASTING_LIGHTS)
    (hl : lights.get ⟨i, lt_of_lt_of_le hi (Nat.min_le_left _ _)⟩ = l) :
    (l.isStatic = true → l.castShadows = true → (slots i).isActive = true →
      (slots i).hasRendered = true → (slots i).type = l.type →
      (slots i).size = requiredShadowSize l p →
      (updateShadowMaps lights p slots).1 i = slots i ∧
      (shadowPassSlot true lights (updateShadowMaps lights p slots).1 i).2 = false ∧
      (shadowPassSlot true lights (updateShadowMaps lights p slots).1 i).1 = slots i) ∧
    (((slots i).isActive = false → (slots i).hasRendered = false) →
      ((slots i).isActive = false ∨ (slots i).type ≠ l.type ∨
        (slots i).size ≠ requiredShadowSize l p) →
      l.castShadows = true →
      ((updateShadowMaps lights p slots).1 i).hasRendered = false ∧
      (shadowPassSlot true lights (updateShadowMaps lights p slots).1 i).2 = true) ∧
    (l.isStatic = false → (slots i).isActive = true →
      (shadowPassSlot true lights slots i).2 = true) := by
  have hlen : (i : ℕ) < lights.length := lt_of_lt_of_le hi (Nat.min_le_left _ _)
  have hl2 : lights[(i : ℕ)] = l := hl
  have hu : (updateShadowMaps lights p slots).1 i = (reconcileSlot l p (slots i)).slot := by
    simp only [updateShadowMaps, updateShadowMapsSlot, dif_pos hi]
    rw [show lights.get ⟨(i : ℕ), lt_of_lt_of_le hi (Nat.min_le_left _ _)⟩ = l from hl]
  refine ⟨?_, ?_, ?_⟩
  · intro hstat hcast hact hrend htype hsize
    have hnoop := reconcileSlot_noop l p (slots i) hact htype hsize hcast
    have hu2 : (updateShadowMaps lights p slots).1 i = slots i := by
      rw [hu, hnoop]
    refine ⟨hu2, ?_, ?_⟩ <;>
      simp [shadowPassSlot, dif_pos hi, hlen, hl2, hu2, hact, hstat, hrend]
  · intro hinv hcond hcast
    have halloc := reconcileSlot_alloc l p (slots i) hinv hcond hcast
    have hu2 : (updateShadowMaps lights p slots).1 i
        = ⟨true, l.type, requiredShadowSize l p, false⟩ := by
      rw [hu, halloc]
    constructor
    · rw [hu2]
    · simp [shadowPassSlot, dif_pos hi, hlen, hl2, hu2]
  · intro hstat hact
    simp [shadowPassSlot, dif_pos hi, hlen, hl2, hact, hstat]

/-- Concrete scenario data for the caching claim: a static
shadow-casting point light with a matching rendered slot, a stale
inactive slot, and a non-static light. -/
def staticCachedLight : Light := { defaultLight with isStatic := true }

def cachedSlot : ShadowMapData := ⟨true, .point, 1024, true⟩

def staleSlot : ShadowMapData := ⟨false, .directional, 0, false⟩

/-- Witness for the caching claim: instantiates all three conjuncts at
concrete lights and slots. -/
theorem staticShadowCaching_witness :
    ((updateShadowMaps [staticCachedLight] defaultShadowParams
        (fun _ => cachedSlot)).1 ⟨0, by norm_num [MAX_SHADOW_CASTING_LIGHTS]⟩ = cachedSlot ∧
      (shadowPassSlot true [staticCachedLight]
        (updateShadowMaps [staticCachedLight] defaultShadowParams (fun _ => cachedSlot)).1
        ⟨0, by norm_num [MAX_SHADOW_CASTING_LIGHTS]⟩).2 = false) ∧
    (((updateShadowMaps [defaultLight] defaultShadowParams
        (fun _ => staleSlot)).1 ⟨0, by norm_num [MAX_SHADOW_CASTING_LIGHTS]⟩).hasRendered = false ∧
      (shadowPassSlot true [defaultLight]
        (updateShadowMaps [defaultLight] defaultShadowParams (fun _ => staleSlot)).1
        ⟨0, by norm_num [MAX_SHADOW_CASTING_LIGHTS]⟩).2 = true) ∧
    (shadowPassSlot true [defaultLight] (fun _ => cachedSlot)
        ⟨0, by norm_num [MAX_SHADOW_CASTING_LIGHTS]⟩).2 = true := by
  have hmin : (0 : ℕ) < min ([staticCachedLight].length) MAX_SHADOW_CASTING_LIGHTS := by
    norm_num [MAX_SHADOW_CASTING_LIGHTS]
  have hmin2 : (0 : ℕ) < min ([defaultLight].length) MAX_SHADOW_CASTING_LIGHTS := by
    norm_num [MAX_SHADOW_CASTING_LIGHTS]
  have h1 := (staticShadowCaching [staticCachedLight] defaultShadowParams
    (fun _ => cachedSlot) ⟨0, by norm_num [MAX_SHADOW_CASTING_LIGHTS]⟩
    staticCachedLight hmin rfl).1 rfl rfl rfl rfl rfl rfl
  have h2 := (staticShadowCaching [defaultLight] defaultShadowParams
    (fun _ => staleSlot) ⟨0, by norm_num [MAX_SHADOW_CASTING_LIGHTS]⟩
    defaultLight hmin2 rfl).2.1 (fun _ => rfl) (Or.inl rfl) rfl
  have h3 := (staticShadowCaching [defaultLight] defaultShadowParams
    (fun _ => cachedSlot) ⟨0, by norm_num [MAX_SHADOW_CASTING_LIGHTS]⟩
    defaultLight hmin2 rfl).2.2 rfl rfl
  exact ⟨⟨h1.1, h1.2.1⟩, h2, h3⟩

/-! ### Direction-normalization invariant (claim C3) -/

/-- Unit length within the tolerance 1e-5 used by the spec. -/
def unitWithinTol (v : Vec3) : Prop := |lengthV v - 1| ≤ 1/100000

lemma lengthV_normalizeV (v : Vec3) (h : dotV v v ≠ 0) :
    lengthV (normalizeV v) = 1 := by
  have hnn : 0 ≤ dotV v v := by
    unfold dotV
    nlinarith [mul_self_nonneg v.x, mul_self_nonneg v.y, mul_self_nonneg v.z]
  have hdot : dotV (normalizeV v) (normalizeV v) = dotV v v / (lengthV v) ^ 2 := by
    simp only [normalizeV, dotV]
    field_simp
    ring
  have hsq : (lengthV v) ^ 2 = dotV v v := Real.sq_sqrt hnn
  rw [lengthV, hdot, hsq, div_self h, Real.sqrt_one]

/-- The spot light used for the normalization counterexample. -/
def spotLightC3 : Light := createSpotLight ⟨0, 0, 0⟩ ⟨0, 0, -1⟩ ⟨1, 1, 1⟩ (25/2) 15 1

/-- The registry after a GUI direction edit is pushed through
`updateLight`: the slider writes the raw components (1,1,0). -/
def editedRegistryC3 : List Light :=
  updateLight 0 (guiSetDirection spotLightC3 ⟨1, 1, 0⟩) [spotLightC3]

/-- Claim C3 as stated is false: a GUI direction edit (or an
`updateLight` replace) stores the direction verbatim, so after setting
the slider to (1,1,0) the stored direction has length √2, which is not
within 1e-5 of 1. -/
theorem direction_unit_invariant_counterexample :
    (editedRegistryC3.getD 0 defaultLight).direction = ⟨1, 1, 0⟩ ∧
    ¬ unitWithinTol ⟨1, 1, 0⟩ := by
  constructor
  · rfl
  · intro habs
    have hlen : lengthV ⟨1, 1, 0⟩ = Real.sqrt 2 := by
      unfold lengthV dotV
      norm_num
    rw [unitWithinTol, hlen] at habs
    have hs : Real.sqrt 2 ^ 2 = 2 := Real.sq_sqrt (by norm_num)
    have hpos : 0 ≤ Real.sqrt 2 := Real.sqrt_nonneg 2
    have habs2 := abs_le.1 habs
    nlinarith [habs2.2]

/-- Claim C3 (amended): the direction is normalized by the factory
functions (`createDirectionalLight` and `createSpotLight` normalize any
nonzero input; `createPointLight` keeps the default unit direction),
but `updateLight` and the GUI direction widget copy the direction
verbatim with no renormalization, so the invariant is guaranteed only
at creation. -/
theorem direction_normalized_at_creation :
    (∀ (d c : Vec3) (it : ℝ), dotV d d ≠ 0 →
      lengthV (createDirectionalLight d c it).direction = 1) ∧
    (∀ (p d c : Vec3) (co oc it : ℝ), dotV d d ≠ 0 →
      lengthV (createSpotLight p d c co oc it).direction = 1) ∧
    (∀ (p c : Vec3) (it : ℝ), lengthV (createPointLight p c it).direction = 1) ∧
    (∀ (l : Light) (v : Vec3), (guiSetDirection l v).direction = v) ∧
    (∀ (ls : List Light) (idx : ℕ) (l : Light), idx < ls.length →
      (updateLight idx l ls).getD idx defaultLight = l) := by
  refine ⟨?_, ?_, ?_, fun l v => rfl, ?_⟩
  · intro d c it h
    exact lengthV_normalizeV d h
  · intro p d c co oc it h
    exact lengthV_normalizeV d h
  · intro p c it
    show lengthV ⟨0, -1, 0⟩ = 1
    unfold lengthV dotV
    norm_num
  · intro ls idx l h
    unfold updateLight
    rw [if_pos h]
    rw [List.getD_eq_getElem _ _ (by simpa using h)]
    simp

/-- Witness for the amended normalization claim: a concrete directional
light created from the nonzero direction (0,0,-1), and a concrete
in-bounds `updateLight`. -/
theorem direction_normalized_at_creation_witness :
    lengthV (createDirectionalLight ⟨0, 0, -1⟩ ⟨1, 1, 1⟩ 1).direction = 1 ∧
    (updateLight 0 spotLightC3 [defaultLight]).getD 0 defaultLight = spotLightC3 := by
  constructor
  · exact direction_normalized_at_creation.1 ⟨0, 0, -1⟩ ⟨1, 1, 1⟩ 1 (by norm_num [dotV])
  · exact direction_normalized_at_creation.2.2.2.2 [defaultLight] 0 spotLightC3 (by norm_num)

/-! ### Frame statistics (claim C4) -/

structure Stats where
  drawCalls : ℕ
  vertexCount : ℕ
deriving DecidableEq

/-- `Renderer::resetStats` sets both counters to zero; `Renderer::render`
calls it first thing each frame. -/
def resetStats : Stats := ⟨0, 0⟩

/-- One scene entry as seen by `Renderer::renderModel`: whether the
model pointer is non-null and its vertex count. The hard-coded scene
content itself is external level data. -/
structure DrawItem where
  present : Bool
  vertices : ℕ
deriving DecidableEq

/-- `Renderer::renderModel`: returns early when the model or shader is
null; otherwise issues the draw and unconditionally increments
`stats.drawCalls` and `stats.vertexCount` (Renderer.cpp:1682-1705). -/
def renderModel (shaderOk : Bool) (m : DrawItem) (s : Stats) : Stats :=
  if m.present = true ∧ shaderOk = true then
    ⟨s.drawCalls + 1, s.vertexCount + m.vertices⟩
  else s

/-- `Renderer::renderScene`: draws every scene entry through
`renderModel`, threading the statistics. -/
def renderSceneStats (shaderOk : Bool) (scene : List DrawItem) (s : Stats) : Stats :=
  scene.foldl (fun acc m => renderModel shaderOk m acc) s

/-- Number of shadow slots actually rendered by the shadow pass this
frame (each rendered slot triggers one `renderScene` call). -/
def shadowPassRenderCount (shadersOk : Bool) (lights : List Light)
    (slots : Fin MAX_SHADOW_CASTING_LIGHTS → ShadowMapData) : ℕ :=
  ∑ i : Fin MAX_SHADOW_CASTING_LIGHTS,
    if (shadowPassSlot shadersOk lights slots i).2 = true then 1 else 0

/-- Statistics effect of `Renderer::shadowMapPass`: one full
`renderScene` traversal per rendered slot (via `renderDirectionalShadow`,
`renderPointShadow`, or `renderSpotShadow`, all of which call
`renderScene`, which calls `renderModel`). -/
def shadowMapPassStats (shadersOk : Bool) (lights : List Light)
    (slots : Fin MAX_SHADOW_CASTING_LIGHTS → ShadowMapData)
    (shadowScene : List DrawItem) (s : Stats) : Stats :=
  (renderSceneStats true shadowScene)^[shadowPassRenderCount shadersOk lights slots] s

/-- Statistics effect of `Renderer::geometryPass`: one scene traversal
through `renderModel` when the geometry shader compiled. -/
def geometryPassStats (geometryShaderOk : Bool) (geomScene : List DrawItem)
    (s : Stats) : Stats :=
  if geometryShaderOk then renderSceneStats true geomScene s else s

/-- Statistics over a whole `Renderer::render` frame: reset, then the
shadow pass, then the geometry pass (the lighting, edge and composite
passes issue no `renderModel` calls). -/
def renderFrameStats (shadersOk geometryShaderOk : Bool) (lights : List Light)
    (slots : Fin MAX_SHADOW_CASTING_LIGHTS → ShadowMapData)
    (shadowScene geomScene : List DrawItem) : Stats :=
  geometryPassStats geometryShaderOk geomScene
    (shadowMapPassStats shadersOk lights slots shadowScene resetStats)

/-- Number of draws a scene traversal issues (present models only). -/
def scenePresentDraws (scene : List DrawItem) : ℕ :=
  (scene.filter fun m => m.present).length

/-- Total vertices of the present models of a scene. -/
def scenePresentVertices (scene : List DrawItem) : ℕ :=
  ((scene.filter fun m => m.present).map DrawItem.vertices).sum

lemma renderSceneStats_eq (scene : List DrawItem) (s : Stats) :
    renderSceneStats true scene s
      = ⟨s.drawCalls + scenePresentDraws scene,
         s.vertexCount + scenePresentVertices scene⟩ := by
  induction scene generalizing s with
  | nil => simp [renderSceneStats, scenePresentDraws, scenePresentVertices]
  | cons m rest ih =>
    by_cases hm : m.present = true
    · have hstep : renderModel true m s = ⟨s.drawCalls + 1, s.vertexCount + m.vertices⟩ := by
        simp [renderModel, hm]
      simp only [renderSceneStats, List.foldl_cons] at *
      rw [hstep, ih]
      simp [scenePresentDraws, scenePresentVertices, hm]
      omega
    · have hstep : renderModel true m s = s := by
        simp [renderModel, hm]
      simp only [renderSceneStats, List.foldl_cons] at *
      rw [hstep, ih]
      simp [scenePresentDraws, scenePresentVertices, hm]

lemma renderSceneStats_iterate (scene : List DrawItem) (n : ℕ) (s : Stats) :
    (renderSceneStats true scene)^[n] s
      = ⟨s.drawCalls + n * scenePresentDraws scene,
         s.vertexCount + n * scenePresentVertices scene⟩ := by
  induction n generalizing s with
  | zero => simp
  | succ n ih =>
    rw [Function.iterate_succ_apply, renderSceneStats_eq, ih]
    refine congrArg₂ Stats.mk ?_ ?_ <;> simp <;> ring

/-- The slot used by the statistics counterexample: active, point type,
matching resolution, not yet rendered. -/
def renderSlotC4 : ShadowMapData := ⟨true, .point, 1024, false⟩

/-- Claim C4 as stated is false: shadow-pass draws do change the frame
counters. With one shadow-rendered light and a one-model scene of 7
vertices, the counters already read (1,7) after the shadow pass, and
the whole frame reads (2,14) — not the geometry-only (1,7). -/
theorem stats_shadow_pass_counterexample :
    shadowMapPassStats true [defaultLight] (fun _ => renderSlotC4)
        [⟨true, 7⟩] resetStats = ⟨1, 7⟩ ∧
    renderFrameStats true true [defaultLight] (fun _ => renderSlotC4)
        [⟨true, 7⟩] [⟨true, 7⟩] = ⟨2, 14⟩ ∧
    (⟨1, 7⟩ : Stats) ≠ resetStats ∧
    (⟨2, 14⟩ : Stats) ≠ ⟨1, 7⟩ := by
  have hcount : shadowPassRenderCount true [defaultLight] (fun _ => renderSlotC4) = 1 := by
    decide
  have hshadow : shadowMapPassStats true [defaultLight] (fun _ => renderSlotC4)
      [⟨true, 7⟩] resetStats = ⟨1, 7⟩ := by
    rw [shadowMapPassStats, hcount, renderSceneStats_iterate]
    simp [resetStats, scenePresentDraws, scenePresentVertices]
  refine ⟨hshadow, ?_, by decide, by decide⟩
  rw [renderFrameStats, hshadow]
  simp only [geometryPassStats, if_true]
  rw [renderSceneStats_eq]
  simp [scenePresentDraws, scenePresentVertices]

/-- Claim C4 (amended): the counters are reset at frame start and then
accumulate one increment per `renderModel` draw of the shadow pass and
of the geometry pass alike — the shadow pass contributes one full scene
traversal per rendered shadow slot; the final counter values are
absolute counts over both passes. -/
theorem stats_accumulate_all_passes (shadersOk geometryShaderOk : Bool)
    (lights : List Light) (slots : Fin MAX_SHADOW_CASTING_LIGHTS → ShadowMapData)
    (shadowScene geomScene : List DrawItem) :
    renderFrameStats shadersOk geometryShaderOk lights slots shadowScene geomScene
      = ⟨shadowPassRenderCount shadersOk lights slots * scenePresentDraws shadowScene
           + (if geometryShaderOk then scenePresentDraws geomScene else 0),
         shadowPassRenderCount shadersOk lights slots * scenePresentVertices shadowScene
           + (if geometryShaderOk then scenePresentVertices geomScene else 0)⟩ := by
  rw [renderFrameStats, shadowMapPassStats, renderSceneStats_iterate]
  by_cases hg : geometryShaderOk = true
  · simp only [geometryPassStats, hg, if_true]
    rw [renderSceneStats_eq]
    simp [resetStats]
  · have hg2 : geometryShaderOk = false := by simpa using hg
    simp [geometryPassStats, hg2, resetStats]

/-! ### Edge-detection shader (assets/shaders/edge_detection.frag)

Samplers are modelled as functions from texture coordinates to texel
values. The unused `gPosition` sampler of the shader is omitted. -/

/-- GLSL `clamp` on reals. -/
def glslClampR (x lo hi : ℝ) : ℝ := min (max x lo) hi

/-- GLSL `smoothstep(e0, e1, x)`: Hermite interpolation of the clamped
normalized parameter. -/
def glslSmoothstep (e0 e1 x : ℝ) : ℝ :=
  let t := glslClampR ((x - e0) / (e1 - e0)) 0 1
  t * t * (3 - 2 * t)

structure EdgeUniforms where
  edgeFlags : ℕ
  depthThreshold : ℝ
  normalThreshold : ℝ
  sobelThreshold : ℝ
  colorThreshold : ℝ
  edgeColor : Vec3
  screenWidth : ℝ
  screenHeight : ℝ
  depthExponent : ℝ
  sobelScale : ℝ
  smoothWidth : ℝ
  laplacianThreshold : ℝ
  laplacianScale : ℝ

/-- `getLinearDepth(d) = pow(d, depthExponent)`. -/
def getLinearDepth (u : EdgeUniforms) (d : ℝ) : ℝ := d ^ u.depthExponent

/-- `getEdgeIntensity(val, threshold)`: smoothstep with the shared edge
width `smoothWidth * 0.01` around the threshold. -/
def getEdgeIntensity (u : EdgeUniforms) (val threshold : ℝ) : ℝ :=
  let edgeW := u.smoothWidth * (1/100)
  glslSmoothstep (threshold - edgeW) (threshold + edgeW) val

/-- `depthEdgeDetection()`: magnitude of the two axis depth differences
on remapped depth, thresholded. -/
def depthEdgeDetection (u : EdgeUniforms) (gDepth : ℝ × ℝ → ℝ) (tc : ℝ × ℝ) : ℝ :=
  let tsx := 1 / u.screenWidth
  let tsy := 1 / u.screenHeight
  let depthN := getLinearDepth u (gDepth (tc.1, tc.2 + tsy))
  let depthS := getLinearDepth u (gDepth (tc.1, tc.2 - tsy))
  let depthE := getLinearDepth u (gDepth (tc.1 + tsx, tc.2))
  let depthW := getLinearDepth u (gDepth (tc.1 - tsx, tc.2))
  let depthGradX := |depthE - depthW|
  let depthGradY := |depthN - depthS|
  let depthGrad := Real.sqrt (depthGradX * depthGradX + depthGradY * depthGradY)
  getEdgeIntensity u depthGrad u.depthThreshold

/-- `normalEdgeDetection()`: one minus the minimum dot product with the
four axis neighbors, thresholded. -/
def normalEdgeDetection (u : EdgeUniforms) (gNormal : ℝ × ℝ → Vec3) (tc : ℝ × ℝ) : ℝ :=
  let tsx := 1 / u.screenWidth
  let tsy := 1 / u.screenHeight
  let nrm := gNormal (tc.1, tc.2)
  let dotN := dotV nrm (gNormal (tc.1, tc.2 + tsy))
  let dotS := dotV nrm (gNormal (tc.1, tc.2 - tsy))
  let dotE := dotV nrm (gNormal (tc.1 + tsx, tc.2))
  let dotW := dotV nrm (gNormal (tc.1 - tsx, tc.2))
  let minDot := min (min dotN dotS) (min dotE dotW)
  getEdgeIntensity u (1 - minDot) u.normalThreshold

/-- `computeSobel`: gradient magnitude of the 3x3 Sobel kernels. -/
def computeSobel (tl tm tr ml mr bl bm br : ℝ) : ℝ :=
  let gx := tl * (-1) + tr * 1 + ml * (-2) + mr * 2 + bl * (-1) + br * 1
  let gy := tl * (-1) + tm * (-2) + tr * (-1) + bl * 1 + bm * 2 + br * 1
  Real.sqrt (gx * gx + gy * gy)

/-- `normalSobelDetection()`: per-channel Sobel magnitudes of the
normal buffer, summed and scaled. -/
def normalSobelDetection (u : EdgeUniforms) (gNormal : ℝ × ℝ → Vec3) (tc : ℝ × ℝ) : ℝ :=
  let tsx := 1 / u.screenWidth
  let tsy := 1 / u.screenHeight
  let tl := gNormal (tc.1 - tsx, tc.2 + tsy)
  let tm := gNormal (tc.1, tc.2 + tsy)
  let tr := gNormal (tc.1 + tsx, tc.2 + tsy)
  let ml := gNormal (tc.1 - tsx, tc.2)
  let mr := gNormal (tc.1 + tsx, tc.2)
  let bl := gNormal (tc.1 - tsx, tc.2 - tsy)
  let bm := gNormal (tc.1, tc.2 - tsy)
  let br := gNormal (tc.1 + tsx, tc.2 - tsy)
  let magX := computeSobel tl.x tm.x tr.x ml.x mr.x bl.x bm.x br.x
  let magY := computeSobel tl.y tm.y tr.y ml.y mr.y bl.y bm.y br.y
  let magZ := computeSobel tl.z tm.z tr.z ml.z mr.z bl.z bm.z br.z
  let totalSobel := (magX + magY + magZ) * u.sobelScale
  getEdgeIntensity u totalSobel u.sobelThreshold

/-- Luminance weighting used by `colorEdgeDetection`. -/
def luminance (c : Vec3) : ℝ := dotV c ⟨299/1000, 587/1000, 114/1000⟩

/-- `colorEdgeDetection()`: Sobel on the luminance of the lit-scene
buffer, scaled like the normal Sobel. -/
def colorEdgeDetection (u : EdgeUniforms) (colorTex : ℝ × ℝ → Vec3) (tc : ℝ × ℝ) : ℝ :=
  let tsx := 1 / u.screenWidth
  let tsy := 1 / u.screenHeight
  let tl := luminance (colorTex (tc.1 - tsx, tc.2 + tsy))
  let tm := luminance (colorTex (tc.1, tc.2 + tsy))
  let tr := luminance (colorTex (tc.1 + tsx, tc.2 + tsy))
  let ml := luminance (colorTex (tc.1 - tsx, tc.2))
  let mr := luminance (colorTex (tc.1 + tsx, tc.2))
  let bl := luminance (colorTex (tc.1 - tsx, tc.2 - tsy))
  let bm := luminance (colorTex (tc.1, tc.2 - tsy))
  let br := luminance (colorTex (tc.1 + tsx, tc.2 - tsy))
  let edgeStr := computeSobel tl tm tr ml mr bl bm br * u.sobelScale
  getEdgeIntensity u edgeStr u.colorThreshold

/-- `laplacianEdgeDetection()`: 8-neighbor discrete Laplacian of the
remapped depth, scaled and thresholded separately. -/
def laplacianEdgeDetection (u : EdgeUniforms) (gDepth : ℝ × ℝ → ℝ) (tc : ℝ × ℝ) : ℝ :=
  let tsx := 1 / u.screenWidth
  let tsy := 1 / u.screenHeight
  let center := getLinearDepth u (gDepth (tc.1, tc.2))
  let n := getLinearDepth u (gDepth (tc.1, tc.2 + tsy))
  let s := getLinearDepth u (gDepth (tc.1, tc.2 - tsy))
  let e := getLinearDepth u (gDepth (tc.1 + tsx, tc.2))
  let w := getLinearDepth u (gDepth (tc.1 - tsx, tc.2))
  let nw := getLinearDepth u (gDepth (tc.1 - tsx, tc.2 + tsy))
  let ne := getLinearDepth u (gDepth (tc.1 + tsx, tc.2 + tsy))
  let sw := getLinearDepth u (gDepth (tc.1 - tsx, tc.2 - tsy))
  let se := getLinearDepth u (gDepth (tc.1 + tsx, tc.2 - tsy))
  let laplacian := (n + s + e + w + nw + ne + sw + se) - 8 * center
  getEdgeIntensity u (|laplacian| * u.laplacianScale) u.laplacianThreshold

/-- Body of `main()` of the edge-detection shader: the maximum of the
enabled techniques (bitmask OR), output as premultiplied color plus
coverage. -/
def edgeMain (u : EdgeUniforms) (gDepth : ℝ × ℝ → ℝ)
    (gNormal colorTex : ℝ × ℝ → Vec3) (tc : ℝ × ℝ) : Vec3 × ℝ :=
  let e0 : ℝ := 0
  let e1 := if u.edgeFlags &&& 1 ≠ 0 then max e0 (depthEdgeDetection u gDepth tc) else e0
  let e2 := if u.edgeFlags &&& 2 ≠ 0 then max e1 (normalEdgeDetection u gNormal tc) else e1
  let e3 := if u.edgeFlags &&& 4 ≠ 0 then max e2 (normalSobelDetection u gNormal tc) else e2
  let e4 := if u.edgeFlags &&& 8 ≠ 0 then max e3 (colorEdgeDetection u colorTex tc) else e3
  let e5 := if u.edgeFlags &&& 16 ≠ 0 then max e4 (laplacianEdgeDetection u gDepth tc) else e4
  (smulV e5 u.edgeColor, e5)

lemma glslSmoothstep_zero_of_nonneg (e0 e1 : ℝ) (h0 : 0 ≤ e0) (h01 : e0 ≤ e1) :
    glslSmoothstep e0 e1 0 = 0 := by
  have hx : (0 - e0) / (e1 - e0) ≤ 0 :=
    div_nonpos_iff.mpr (Or.inr ⟨by linarith, by linarith⟩)
  have ht : glslClampR ((0 - e0) / (e1 - e0)) 0 1 = 0 := by
    rw [glslClampR, max_eq_right hx]
    simp
  rw [glslSmoothstep]
  rw [ht]
  ring

lemma getEdgeIntensity_zero (u : EdgeUniforms) (threshold : ℝ)
    (hw : 0 ≤ u.smoothWidth) (ht : u.smoothWidth * (1/100) ≤ threshold) :
    getEdgeIntensity u 0 threshold = 0 := by
  rw [getEdgeIntensity]
  exact glslSmoothstep_zero_of_nonneg _ _ (by linarith) (by linarith)

lemma edge_chain_step (flag : Prop) [Decidable flag] (e det : ℝ)
    (he : e = 0) (hdet : flag → det = 0) :
    (if flag then max e det else e) = 0 := by
  by_cases hf : flag
  · rw [if_pos hf, he, hdet hf, max_self]
  · rw [if_neg hf, he]

/-- Claim C7 (amended): on a constant (flat) input — constant depth,
constant unit-length normal, constant color — every combination of
enabled techniques yields edge intensity 0 at every pixel, provided
each enabled technique's threshold is at least the smoothing
half-width `smoothWidth * 0.01`; disabled techniques are never
evaluated, so their thresholds are unconstrained (the claim fails for
an enabled technique with a smaller threshold, where
`smoothstep(threshold - w, threshold + w, 0)` is already positive). -/
theorem edge_flat_input_zero (u : EdgeUniforms) (gDepth : ℝ × ℝ → ℝ)
    (gNormal colorTex : ℝ × ℝ → Vec3) (tc : ℝ × ℝ)
    (d0 : ℝ) (n0 c0 : Vec3)
    (hd : ∀ p, gDepth p = d0) (hn : ∀ p, gNormal p = n0) (hc : ∀ p, colorTex p = c0)
    (hunit : dotV n0 n0 = 1) (hw : 0 ≤ u.smoothWidth)
    (ht1 : u.edgeFlags &&& 1 ≠ 0 → u.smoothWidth * (1/100) ≤ u.depthThreshold)
    (ht2 : u.edgeFlags &&& 2 ≠ 0 → u.smoothWidth * (1/100) ≤ u.normalThreshold)
    (ht3 : u.edgeFlags &&& 4 ≠ 0 → u.smoothWidth * (1/100) ≤ u.sobelThreshold)
    (ht4 : u.edgeFlags &&& 8 ≠ 0 → u.smoothWidth * (1/100) ≤ u.colorThreshold)
    (ht5 : u.edgeFlags &&& 16 ≠ 0 → u.smoothWidth * (1/100) ≤ u.laplacianThreshold) :
    edgeMain u gDepth gNormal colorTex tc = (⟨0, 0, 0⟩, 0) := by
  have hsobel0 : ∀ a : ℝ, computeSobel a a a a a a a a = 0 := by
    intro a
    rw [computeSobel]
    rw [show a * (-1) + a * 1 + a * (-2) + a * 2 + a * (-1) + a * 1 = 0 by ring]
    rw [show a * (-1) + a * (-2) + a * (-1) + a * 1 + a * 2 + a * 1 = 0 by ring]
    simp
  have hdet1 : u.edgeFlags &&& 1 ≠ 0 → depthEdgeDetection u gDepth tc = 0 := by
    intro hf
    rw [depthEdgeDetection]
    simp only [hd, sub_self, abs_zero]
    rw [show (0 : ℝ) * 0 + 0 * 0 = 0 by ring, Real.sqrt_zero]
    exact getEdgeIntensity_zero u _ hw (ht1 hf)
  have hdet2 : u.edgeFlags &&& 2 ≠ 0 → normalEdgeDetection u gNormal tc = 0 := by
    intro hf
    rw [normalEdgeDetection]
    simp only [hn, hunit, min_self]
    rw [sub_self]
    exact getEdgeIntensity_zero u _ hw (ht2 hf)
  have hdet3 : u.edgeFlags &&& 4 ≠ 0 → normalSobelDetection u gNormal tc = 0 := by
    intro hf
    rw [normalSobelDetection]
    simp only [hn, hsobel0]
    rw [show ((0 : ℝ) + 0 + 0) * u.sobelScale = 0 by ring]
    exact getEdgeIntensity_zero u _ hw (ht3 hf)
  have hdet4 : u.edgeFlags &&& 8 ≠ 0 → colorEdgeDetection u colorTex tc = 0 := by
    intro hf
    rw [colorEdgeDetection]
    simp only [hc, hsobel0]
    rw [zero_mul]
    exact getEdgeIntensity_zero u _ hw (ht4 hf)
  have hdet5 : u.edgeFlags &&& 16 ≠ 0 → laplacianEdgeDetection u gDepth tc = 0 := by
    intro hf
    rw [laplacianEdgeDetection]
    simp only [hd]
    rw [show getLinearDepth u d0 + getLinearDepth u d0 + getLinearDepth u d0 +
      getLinearDepth u d0 + getLinearDepth u d0 + getLinearDepth u d0 +
      getLinearDepth u d0 + getLinearDepth u d0 - 8 * getLinearDepth u d0 = 0 by ring]
    rw [abs_zero, zero_mul]
    exact getEdgeIntensity_zero u _ hw (ht5 hf)
  have he1 := edge_chain_step (u.edgeFlags &&& 1 ≠ 0) 0
    (depthEdgeDetection u gDepth tc) rfl hdet1
  have he2 := edge_chain_step (u.edgeFlags &&& 2 ≠ 0) _
    (normalEdgeDetection u gNormal tc) he1 hdet2
  have he3 := edge_chain_step (u.edgeFlags &&& 4 ≠ 0) _
    (normalSobelDetection u gNormal tc) he2 hdet3
  have he4 := edge_chain_step (u.edgeFlags &&& 8 ≠ 0) _
    (colorEdgeDetection u colorTex tc) he3 hdet4
  have he5 := edge_chain_step (u.edgeFlags &&& 16 ≠ 0) _
    (laplacianEdgeDetection u gDepth tc) he4 hdet5
  rw [edgeMain]
  simp only [he5, show smulV 0 u.edgeColor = ⟨0, 0, 0⟩ by simp [smulV]]

/-- Uniform settings for the counterexample: only the depth technique
enabled, depth threshold 0, smoothing width 1 (so the smoothstep window
is (-0.01, 0.01)). -/
def edgeUniformsCounter : EdgeUniforms where
  edgeFlags := 1
  depthThreshold := 0
  normalThreshold := 1/2
  sobelThreshold := 1/2
  colorThreshold := 1/2
  edgeColor := ⟨0, 0, 0⟩
  screenWidth := 100
  screenHeight := 100
  depthExponent := 1
  sobelScale := 1
  smoothWidth := 1
  laplacianThreshold := 1/2
  laplacianScale := 1

/-- Claim C7 as stated is false: with a perfectly flat zero depth
input, depth technique enabled, depth threshold 0 and smoothing width 1
(legal settings), the edge output is 1/2 everywhere, not 0 —
`smoothstep(-0.01, 0.01, 0) = 1/2`. -/
theorem edge_flat_claim_counterexample :
    (edgeMain edgeUniformsCounter (fun _ => 0) (fun _ => ⟨0, 0, 1⟩)
        (fun _ => ⟨0, 0, 0⟩) (1/2, 1/2)).2 = 1/2 ∧ (1/2 : ℝ) ≠ 0 := by
  constructor
  · have hdepth : depthEdgeDetection edgeUniformsCounter (fun _ => 0) (1/2, 1/2) = 1/2 := by
      rw [depthEdgeDetection]
      simp only [sub_self, abs_zero]
      rw [show (0 : ℝ) * 0 + 0 * 0 = 0 by ring, Real.sqrt_zero]
      rw [getEdgeIntensity, glslSmoothstep, glslClampR]
      norm_num [edgeUniformsCounter]
    have hf1 : edgeUniformsCounter.edgeFlags &&& 1 ≠ 0 := by decide
    have hf2 : edgeUniformsCounter.edgeFlags &&& 2 = 0 := by decide
    have hf4 : edgeUniformsCounter.edgeFlags &&& 4 = 0 := by decide
    have hf8 : edgeUniformsCounter.edgeFlags &&& 8 = 0 := by decide
    have hf16 : edgeUniformsCounter.edgeFlags &&& 16 = 0 := by decide
    rw [edgeMain]
    simp only [hf1, hf2, hf4, hf8, hf16, ne_eq, not_true_eq_false, if_false,
      not_false_eq_true, if_true, hdepth]
    norm_num
  · norm_num

/-- Witness for the amended flat-input claim: first all five techniques
enabled with thresholds 1/2 and smoothing width 1 on a flat input;
second only the depth technique enabled with an adequate depth
threshold while the disabled normal technique keeps threshold 0 below
the smoothing half-width (allowed, since it is never evaluated). -/
theorem edge_flat_input_zero_witness :
    edgeMain { edgeUniformsCounter with edgeFlags := 31, depthThreshold := 1/2 }
        (fun _ => 0) (fun _ => ⟨0, 0, 1⟩) (fun _ => ⟨0, 0, 0⟩) (1/2, 1/2)
      = (⟨0, 0, 0⟩, 0) ∧
    edgeMain { edgeUniformsCounter with depthThreshold := 1/2, normalThreshold := 0 }
        (fun _ => 0) (fun _ => ⟨0, 0, 1⟩) (fun _ => ⟨0, 0, 0⟩) (1/2, 1/2)
      = (⟨0, 0, 0⟩, 0) := by
  constructor
  · exact edge_flat_input_zero _ _ _ _ _ 0 ⟨0, 0, 1⟩ ⟨0, 0, 0⟩
      (fun _ => rfl) (fun _ => rfl) (fun _ => rfl)
      (by norm_num [dotV]) (by norm_num [edgeUniformsCounter])
      (fun _ => by norm_num [edgeUniformsCounter])
      (fun _ => by norm_num [edgeUniformsCounter])
      (fun _ => by norm_num [edgeUniformsCounter])
      (fun _ => by norm_num [edgeUniformsCounter])
      (fun _ => by norm_num [edgeUniformsCounter])
  · exact edge_flat_input_zero _ _ _ _ _ 0 ⟨0, 0, 1⟩ ⟨0, 0, 0⟩
      (fun _ => rfl) (fun _ => rfl) (fun _ => rfl)
      (by norm_num [dotV]) (by norm_num [edgeUniformsCounter])
      (fun _ => by norm_num [edgeUniformsCounter])
      (fun hf => absurd (by decide) hf)
      (fun hf => absurd (by decide) hf)
      (fun hf => absurd (by decide) hf)
      (fun hf => absurd (by decide) hf)

/-! ### Lighting shader (hybrid_cel_lighting.frag) and lighting pass

The shader's samplers are modelled as functions; the shadow maps and
light-space matrices are indexed by the light index as in the GLSL
uniform arrays. -/

abbrev Mat4 := Matrix (Fin 4) (Fin 4) ℝ

structure Vec4 where
  x : ℝ
  y : ℝ
  z : ℝ
  w : ℝ

/-- GLSL `mix` on reals. -/
def glslMixR (x y a : ℝ) : ℝ := x * (1 - a) + y * a

/-- The shadow-weighting step of the two shadow samplers, over ℝ. -/
def shadowBlendR (shadow shadowIntensity : ℝ) : ℝ :=
  glslMixR 1 (1 - shadow) (1 - shadowIntensity)

/-- Componentwise product of two vec3 values. -/
def mulV (a b : Vec3) : Vec3 := ⟨a.x * b.x, a.y * b.y, a.z * b.z⟩

/-- The GLSL-side light struct of the lighting shader (`Light` with an
integer `type`: 0 directional, 1 point, 2 spot). -/
structure GLLight where
  type : ℤ
  position : Vec3
  direction : Vec3
  color : Vec3
  intensity : ℝ
  constant : ℝ
  linear : ℝ
  quadratic : ℝ
  cutOff : ℝ
  outerCutOff : ℝ
  castShadows : Bool

/-- A GLSL uniform not written by the application reads as zero. -/
def glDefaultLight : GLLight :=
  ⟨0, ⟨0, 0, 0⟩, ⟨0, 0, 0⟩, ⟨0, 0, 0⟩, 0, 0, 0, 0, 0, 0, false⟩

/-- The integer the lighting pass uploads for a light type
(`static_cast<int>(light.type)`). -/
def lightTypeIndex : LightType → ℤ
  | .directional => 0
  | .point => 1
  | .spot => 2

/-- Per-light uniform upload of `Renderer::lightingPass`
(Renderer.cpp:1188-1202). -/
def toGLLight (l : Light) : GLLight :=
  ⟨lightTypeIndex l.type, l.position, l.direction, l.color, l.intensity,
   l.constant, l.linear, l.quadratic, l.cutOff, l.outerCutOff, l.castShadows⟩

/-- `lightingPass` uploads only the first
`min(lights.size(), MAX_SHADOW_CASTING_LIGHTS)` lights. -/
def uploadedLights (lights : List Light) : List GLLight :=
  (lights.take MAX_SHADOW_CASTING_LIGHTS).map toGLLight

/-- Scalar uniforms of the lighting shader. -/
structure LightingUniforms where
  shadowBias : ℝ
  shadowNormalBias : ℝ
  shadowPCFSamples : ℤ
  shadowIntensity : ℝ
  enablePCF : Bool
  shadowFarPlane : ℝ
  enableQuantization : Bool
  diffuseQuantizationBands : ℤ
  specularThreshold1 : ℝ
  specularThreshold2 : ℝ
  viewPos : Vec3

/-- The G-buffer data of one pixel, as unpacked by `sampleGBuffer`. -/
structure GBufferData where
  baseColor : Vec3
  materialType : ℝ
  worldNormal : Vec3
  roughness : ℝ
  worldPosition : Vec3
  specularShininess : ℝ
  ambientOcclusion : ℝ
  edgeWeight : ℝ

/-- `calculateDirectionalSpotShadow` of the lighting shader: light-space
projection, bounds test, slope-scaled bias, normal-offset depth,
optional PCF, and the final intensity blend. The depth texture is the
function `shadowMap`; `texW`/`texH` model `textureSize`. -/
def calculateDirectionalSpotShadow (uni : LightingUniforms) (M : Mat4)
    (shadowMap : ℝ × ℝ → ℝ) (texW texH : ℝ)
    (fragPos normal lightDir : Vec3) : ℝ :=
  let fpls := M.mulVec ![fragPos.x, fragPos.y, fragPos.z, 1]
  let px := fpls 0 / fpls 3 * (1/2) + 1/2
  let py := fpls 1 / fpls 3 * (1/2) + 1/2
  let pz := fpls 2 / fpls 3 * (1/2) + 1/2
  if pz > 1 ∨ px < 0 ∨ px > 1 ∨ py < 0 ∨ py > 1 then 1
  else
    let bias := max (uni.shadowBias * (1 - dotV normal lightDir)) (uni.shadowBias * (1/10))
    let offsetPos := addV fragPos (smulV uni.shadowNormalBias normal)
    let opls := M.mulVec ![offsetPos.x, offsetPos.y, offsetPos.z, 1]
    let currentDepth := opls 2 / opls 3 * (1/2) + 1/2
    let shadow :=
      if uni.enablePCF = true ∧ uni.shadowPCFSamples > 0 then
        let k := uni.shadowPCFSamples
        (∑ st ∈ Finset.Icc (-k) k ×ˢ Finset.Icc (-k) k,
          if currentDepth - bias >
              shadowMap (px + (st.1 : ℝ) * (1 / texW), py + (st.2 : ℝ) * (1 / texH))
            then (1 : ℝ) else 0)
          / (((k * 2 + 1) * (k * 2 + 1) : ℤ) : ℝ)
      else if currentDepth - bias > shadowMap (px, py) then 1 else 0
    shadowBlendR shadow uni.shadowIntensity

/-- Offsets of the fixed jittered cube-sampling loop of
`calculatePointShadow`: `x = -0.1, -0.05, 0, 0.05` (the float loop
`for (x = -offset; x < offset; x += offset/(samples*0.5))`). -/
def pointShadowOffset (i : ℕ) : ℝ := -(1/10) + (i : ℝ) * (1/20)

/-- `calculatePointShadow` of the lighting shader: cube depth fetch
denormalized by the far plane, a fixed larger bias, optional 4x4x4
jittered filtering, and the final intensity blend. -/
def calculatePointShadow (uni : LightingUniforms) (shadowCubeMap : Vec3 → ℝ)
    (fragPos lightPos : Vec3) : ℝ :=
  let fragToLight := subV fragPos lightPos
  let currentDepth := lengthV fragToLight
  let closestDepth := shadowCubeMap fragToLight * uni.shadowFarPlane
  let bias := uni.shadowBias * (5/2)
  let shadow :=
    if uni.enablePCF = true ∧ uni.shadowPCFSamples > 0 then
      (∑ i ∈ Finset.range 4, ∑ j ∈ Finset.range 4, ∑ l ∈ Finset.range 4,
        if currentDepth - bias >
            shadowCubeMap (addV fragToLight
              ⟨pointShadowOffset i, pointShadowOffset j, pointShadowOffset l⟩)
              * uni.shadowFarPlane
          then (1 : ℝ) else 0) / 64
    else if currentDepth - bias > closestDepth then 1 else 0
  shadowBlendR shadow uni.shadowIntensity

/-- `quantizeDiffuseIntensity` of the lighting shader, over ℝ (the same
function as the rational model used for the quantization claim). -/
def quantizeDiffuseIntensityR (intensity : ℝ) (bands : ℤ) : ℝ :=
  if bands ≤ 1 then intensity
  else
    let clamped := glslClampR intensity 0 1
    ((⌊clamped * (bands : ℝ) + 1/2⌋ : ℤ) : ℝ) / (bands : ℝ)

/-- `quantizeSpecularIntensity` of the lighting shader, over ℝ. -/
def quantizeSpecularIntensityR (intensity threshold1 threshold2 : ℝ) : ℝ :=
  let i := glslClampR intensity 0 1
  let t1 := glslClampR threshold1 0 1
  let t2 := glslClampR threshold2 (t1 + 1/100) 1
  if i < t1 then 0 else if i < t2 then 4/5 else 19/20

/-- `hybridCelShading`: shadow is applied to the diffuse intensity
before quantization; specular is shadow-modulated then three-banded;
the final `pow(color, vec3(1))` is kept from the source. -/
def hybridCelShading (baseColor : Vec3) (diffuseIntensity specularIntensity : ℝ)
    (diffuseBands : ℤ) (specThreshold1 specThreshold2 shadowFactor : ℝ) : Vec3 :=
  let d := diffuseIntensity * shadowFactor
  let quantizedDiffuse := quantizeDiffuseIntensityR d diffuseBands
  let diffuseColor := smulV quantizedDiffuse baseColor
  let s := specularIntensity * shadowFactor
  let quantizedSpecular := quantizeSpecularIntensityR s specThreshold1 specThreshold2
  let specularColor : Vec3 := ⟨quantizedSpecular * (3/5), quantizedSpecular * (3/5),
    quantizedSpecular * (3/5)⟩
  let finalColor := addV diffuseColor specularColor
  ⟨finalColor.x ^ (1 : ℝ), finalColor.y ^ (1 : ℝ), finalColor.z ^ (1 : ℝ)⟩

/-- `calculateSpecularIntensity`: Blinn-Phong specular scaled by N·L. -/
def calculateSpecularIntensity (lightDir viewDir normal : Vec3) (shininess : ℝ) : ℝ :=
  let NdotL := max (dotV normal lightDir) 0
  if NdotL ≤ 0 then 0
  else
    let halfwayDir := normalizeV (addV lightDir viewDir)
    let NdotH := max (dotV normal halfwayDir) 0
    NdotH ^ shininess * NdotL

/-- `calculateMinnaert`. -/
def calculateMinnaert (normal lightDir viewDir : Vec3) (k : ℝ) : Vec3 :=
  let NdotL := max (dotV normal lightDir) 0
  let NdotV := max (dotV normal viewDir) 0
  let v := max (NdotL * NdotV) (1/1000) ^ k
  ⟨v, v, v⟩

/-- `calculateOrenNayar`. -/
def calculateOrenNayar (normal lightDir viewDir : Vec3) (roughness : ℝ)
    (albedo : Vec3) : Vec3 :=
  let sigma2 := roughness * roughness
  let A := 1 - sigma2 / (2 * (sigma2 + 33/100))
  let B := (45/100) * sigma2 / (sigma2 + 9/100)
  let NdotL := max (dotV normal lightDir) 0
  let NdotV := max (dotV normal viewDir) 0
  let lightProj0 := subV lightDir (smulV NdotL normal)
  let viewProj0 := subV viewDir (smulV NdotV normal)
  let lightProj := if lengthV lightProj0 > 1/1000 then normalizeV lightProj0 else lightProj0
  let viewProj := if lengthV viewProj0 > 1/1000 then normalizeV viewProj0 else viewProj0
  let deltaAlpha := max 0 (dotV lightProj viewProj)
  let sinAlpha := if NdotL < NdotV then Real.sqrt (max 0 (1 - NdotL * NdotL))
    else Real.sqrt (max 0 (1 - NdotV * NdotV))
  let tanBeta := if NdotL < NdotV then
      Real.sqrt (max 0 (1 - NdotV * NdotV)) / max NdotV (1/1000)
    else Real.sqrt (max 0 (1 - NdotL * NdotL)) / max NdotL (1/1000)
  smulV (NdotL * (A + B * deltaAlpha * sinAlpha * tanBeta)) albedo

/-- `determineTangentFrame`: arbitrary tangent basis from the normal. -/
def determineTangentFrame (N : Vec3) : Vec3 × Vec3 :=
  let up : Vec3 := if |N.y| < 999999/1000000 then ⟨0, 1, 0⟩ else ⟨1, 0, 0⟩
  let T := normalizeV (crossV up N)
  (T, crossV N T)

/-- `calculateAshikhminShirley`: anisotropic diffuse plus specular. -/
def calculateAshikhminShirley (N L V : Vec3) (nu nv : ℝ) (albedo : Vec3) : Vec3 :=
  let H := normalizeV (addV L V)
  let TB := determineTangentFrame N
  let NdotL := max (dotV N L) 0
  let NdotV := max (dotV N V) 0
  let NdotH := max (dotV N H) 0
  let HdotV := max (dotV H V) 0
  if NdotL = 0 ∨ NdotV = 0 then ⟨0, 0, 0⟩
  else
    let Rd := 28 * (1 - max (dotV N L) 0 / 2) * (1 - max (dotV N V) 0 / 2) / (23 * 314159/100000)
    let diffuse := smulV (Rd * (1 - (1 - NdotL / 2) ^ (5 : ℝ)) * (1 - (1 - NdotV / 2) ^ (5 : ℝ))) albedo
    let HdotT := dotV H TB.1
    let HdotB := dotV H TB.2
    let expon := (nu * HdotT * HdotT + nv * HdotB * HdotB) / (1 - NdotH * NdotH)
    let numer := Real.sqrt ((nu + 1) * (nv + 1)) * NdotH ^ expon
    let denom := 8 * (314159/100000) * HdotV * max NdotL NdotV
    let F := (1/25 : ℝ) + (1 - 1/25) * (1 - HdotV) ^ (5 : ℝ)
    let specular : Vec3 := ⟨numer / denom * F, numer / denom * F, numer / denom * F⟩
    addV diffuse specular

/-- `calculateCookTorrance`: Beckmann microfacet specular with
geometric attenuation and Schlick Fresnel, plus balanced diffuse. -/
def calculateCookTorrance (N L V : Vec3) (roughness F0val : ℝ) (albedo : Vec3) : Vec3 :=
  let H := normalizeV (addV L V)
  let NdotL := max (dotV N L) 0
  let NdotV := max (dotV N V) 0
  if NdotL = 0 then ⟨0, 0, 0⟩
  else
    let NdotH := max (dotV N H) (1/1000)
    let NdotH2 := NdotH * NdotH
    let m2 := roughness * roughness
    let r1 := 1 / (4 * m2 * NdotH ^ (4 : ℝ))
    let r2 := (NdotH2 - 1) / (m2 * NdotH2)
    let D := r1 * Real.exp r2
    let HdotV := max (dotV H V) 0
    let NdotHx2 := 2 * NdotH
    let G := min 1 (min (NdotHx2 * NdotV / HdotV) (NdotHx2 * NdotL / HdotV))
    let F := F0val + (1 - F0val) * (1 - HdotV) ^ (5 : ℝ)
    let kS := D * F * G / (4 * NdotV * NdotL + 1/1000)
    let kD := 1 - F
    smulV NdotL (addV (smulV (kD / (314159/100000)) albedo) ⟨kS, kS, kS⟩)

/-- The result of the per-light type dispatch: light direction,
attenuation, and shadow factor. -/
def lightDirAttShadow (uni : LightingUniforms)
    (shadowTex : ℕ → ℝ × ℝ → ℝ) (shadowCube : ℕ → Vec3 → ℝ)
    (lightSpaceMats : ℕ → Mat4) (texSizes : ℕ → ℝ × ℝ)
    (gData : GBufferData) (i : ℕ) (light : GLLight) : Vec3 × ℝ × ℝ :=
  if light.type = 0 then
    let lightDir := normalizeV (negV light.direction)
    (lightDir, 1,
      if light.castShadows = true then
        calculateDirectionalSpotShadow uni (lightSpaceMats i) (shadowTex i)
          (texSizes i).1 (texSizes i).2 gData.worldPosition gData.worldNormal lightDir
      else 1)
  else if light.type = 1 then
    let lightVec := subV light.position gData.worldPosition
    let lightDir := normalizeV lightVec
    let dist := lengthV lightVec
    let att := 1 / (light.constant + light.linear * dist + light.quadratic * dist * dist)
    (lightDir, att,
      if light.castShadows = true then
        calculatePointShadow uni (shadowCube i) gData.worldPosition light.position
      else 1)
  else if light.type = 2 then
    let lightVec := subV light.position gData.worldPosition
    let lightDir := normalizeV lightVec
    let dist := lengthV lightVec
    let att0 := 1 / (light.constant + light.linear * dist + light.quadratic * dist * dist)
    let theta := dotV lightDir (normalizeV (negV light.direction))
    let epsilon := light.cutOff - light.outerCutOff
    let inten := glslClampR ((theta - light.outerCutOff) / epsilon) 0 1
    (lightDir, att0 * inten,
      if light.castShadows = true then
        calculateDirectionalSpotShadow uni (lightSpaceMats i) (shadowTex i)
          (texSizes i).1 (texSizes i).2 gData.worldPosition gData.worldNormal lightDir
      else 1)
  else (⟨0, 0, 0⟩, 1, 1)

/-- Diffuse intensity, diffuse color and initial specular intensity per
material model (the body of the material dispatch). `extraParams` is
the `gQuantization` texel re-sampled inside the branches. -/
def materialDiffuse (gData : GBufferData) (extraParams : Vec4)
    (viewDir lightDir : Vec3) (materialType : ℤ) : ℝ × Vec3 × ℝ :=
  if materialType = 0 then
    let NdotL := max (dotV gData.worldNormal lightDir) 0
    (NdotL, smulV NdotL gData.baseColor, 0)
  else if materialType = 1 then
    let k := extraParams.x
    let minnaert := calculateMinnaert gData.worldNormal lightDir viewDir k
    (minnaert.x, mulV gData.baseColor minnaert, 0)
  else if materialType = 2 then
    let roughness := extraParams.y
    let orenNayar := calculateOrenNayar gData.worldNormal lightDir viewDir roughness gData.baseColor
    (lengthV orenNayar / lengthV (addV gData.baseColor ⟨1/1000, 1/1000, 1/1000⟩), orenNayar, 0)
  else if materialType = 3 then
    let nu := extraParams.x
    let nv := extraParams.y
    let ash := calculateAshikhminShirley gData.worldNormal lightDir viewDir nu nv gData.baseColor
    (lengthV ash / lengthV (addV gData.baseColor ⟨1/1000, 1/1000, 1/1000⟩), ash, 0)
  else if materialType = 4 then
    let roughness := extraParams.x
    let F0 := extraParams.y
    let ct := calculateCookTorrance gData.worldNormal lightDir viewDir roughness F0 gData.baseColor
    (lengthV ct / lengthV (addV gData.baseColor ⟨1/1000, 1/1000, 1/1000⟩), ct, 0)
  else (0, ⟨0, 0, 0⟩, 0)

/-- One iteration of the light loop of `calculateHybridCelShading`:
the contribution the light at index `i` adds to `totalLighting`
(`continue` paths contribute zero). -/
def lightContribution (uni : LightingUniforms)
    (shadowTex : ℕ → ℝ × ℝ → ℝ) (shadowCube : ℕ → Vec3 → ℝ)
    (lightSpaceMats : ℕ → Mat4) (texSizes : ℕ → ℝ × ℝ)
    (gData : GBufferData) (extraParams : Vec4) (viewDir : Vec3)
    (materialType : ℤ) (i : ℕ) (light : GLLight) : Vec3 :=
  if light.intensity ≤ 0 then ⟨0, 0, 0⟩
  else
    let das := lightDirAttShadow uni shadowTex shadowCube lightSpaceMats texSizes gData i light
    let lightDir := das.1
    let attenuation := das.2.1
    let shadowFactor := das.2.2
    if attenuation ≤ 1/1000 then ⟨0, 0, 0⟩
    else
      let mdc := materialDiffuse gData extraParams viewDir lightDir materialType
      let diffuseIntensity := mdc.1 * light.intensity * attenuation
      let diffuseColor := smulV (light.intensity * attenuation) mdc.2.1
      let specularIntensity :=
        if materialType ≠ 3 ∧ materialType ≠ 4 then
          calculateSpecularIntensity lightDir viewDir gData.worldNormal
            gData.specularShininess * light.intensity * attenuation * (3/10)
        else mdc.2.2
      if uni.enableQuantization = true then
        mulV (hybridCelShading gData.baseColor diffuseIntensity specularIntensity
          uni.diffuseQuantizationBands uni.specularThreshold1 uni.specularThreshold2
          shadowFactor) light.color
      else
        mulV (addV (smulV shadowFactor diffuseColor)
          ⟨specularIntensity * shadowFactor, specularIntensity * shadowFactor,
            specularIntensity * shadowFactor⟩) light.color

/-- `calculateHybridCelShading`: sums the per-light contributions for
`i < numLights && i < 8` and adds the flat ambient term on top. -/
def calculateHybridCelShading (uni : LightingUniforms) (numLights : ℤ)
    (lights : List GLLight)
    (shadowTex : ℕ → ℝ × ℝ → ℝ) (shadowCube : ℕ → Vec3 → ℝ)
    (lightSpaceMats : ℕ → Mat4) (texSizes : ℕ → ℝ × ℝ)
    (gData : GBufferData) (extraParams : Vec4) (viewDir : Vec3) : Vec3 :=
  let materialType := round gData.materialType
  let total := (List.range (min numLights.toNat MAX_SHADOW_CASTING_LIGHTS)).foldl
    (fun acc i => addV acc (lightContribution uni shadowTex shadowCube lightSpaceMats
      texSizes gData extraParams viewDir materialType i (lights.getD i glDefaultLight)))
    ⟨0, 0, 0⟩
  addV total (smulV ((1/10) * gData.ambientOcclusion) gData.baseColor)

/-- The lighting pass viewed per pixel: the uniform upload of
`Renderer::lightingPass` (`numLights = min(count, 8)`, lights truncated
to the first 8) feeding the shader body. -/
def lightingPassColor (lights : List Light) (uni : LightingUniforms)
    (shadowTex : ℕ → ℝ × ℝ → ℝ) (shadowCube : ℕ → Vec3 → ℝ)
    (lightSpaceMats : ℕ → Mat4) (texSizes : ℕ → ℝ × ℝ)
    (gData : GBufferData) (extraParams : Vec4) (viewDir : Vec3) : Vec3 :=
  calculateHybridCelShading uni ((min lights.length MAX_SHADOW_CASTING_LIGHTS : ℕ) : ℤ)
    (uploadedLights lights) shadowTex shadowCube lightSpaceMats texSizes
    gData extraParams viewDir

lemma foldl_eq_of_mem_eq {α β : Type} (l : List α) (f g : β → α → β) (init : β)
    (h : ∀ b a, a ∈ l → f b a = g b a) : l.foldl f init = l.foldl g init := by
  induction l generalizing init with
  | nil => rfl
  | cons a rest ih =>
    simp only [List.foldl_cons]
    rw [h init a (List.mem_cons_self a rest)]
    exact ih _ fun b a2 ha2 => h b a2 (List.mem_cons_of_mem a ha2)

/-- Claim C10: a registry with at least 8 lights produces exactly the
lighting of its first 8 lights — appending any further lights changes
no pixel of the lit image (the upload truncates to `min(count, 8)` and
the shader loop reads only indices below `min(numLights, 8)`). -/
theorem lights_beyond_eight_no_contribution (lights extra : List Light)
    (h : MAX_SHADOW_CASTING_LIGHTS ≤ lights.length)
    (uni : LightingUniforms)
    (shadowTex : ℕ → ℝ × ℝ → ℝ) (shadowCube : ℕ → Vec3 → ℝ)
    (lightSpaceMats : ℕ → Mat4) (texSizes : ℕ → ℝ × ℝ)
    (gData : GBufferData) (extraParams : Vec4) (viewDir : Vec3) :
    lightingPassColor (lights ++ extra) uni shadowTex shadowCube lightSpaceMats
        texSizes gData extraParams viewDir
      = lightingPassColor lights uni shadowTex shadowCube lightSpaceMats
        texSizes gData extraParams viewDir ∧
    (∀ (glLights glExtra : List GLLight) (numLights : ℤ),
      MAX_SHADOW_CASTING_LIGHTS ≤ glLights.length →
      calculateHybridCelShading uni numLights (glLights ++ glExtra) shadowTex
          shadowCube lightSpaceMats texSizes gData extraParams viewDir
        = calculateHybridCelShading uni numLights glLights shadowTex
          shadowCube lightSpaceMats texSizes gData extraParams viewDir) := by
  have hloop : ∀ (glLights glExtra : List GLLight) (numLights : ℤ),
      MAX_SHADOW_CASTING_LIGHTS ≤ glLights.length →
      calculateHybridCelShading uni numLights (glLights ++ glExtra) shadowTex
          shadowCube lightSpaceMats texSizes gData extraParams viewDir
        = calculateHybridCelShading uni numLights glLights shadowTex
          shadowCube lightSpaceMats texSizes gData extraParams viewDir := by
    intro glLights glExtra numLights hlen
    unfold calculateHybridCelShading
    refine congrArg₂ addV ?_ rfl
    refine foldl_eq_of_mem_eq _ _ _ _ ?_
    intro acc i hi
    have hib : i < min numLights.toNat MAX_SHADOW_CASTING_LIGHTS := List.mem_range.1 hi
    have hil : i < glLights.length :=
      lt_of_lt_of_le (lt_of_lt_of_le hib (Nat.min_le_right _ _)) hlen
    rw [List.getD_append _ _ _ _ hil]
  refine ⟨?_, hloop⟩
  have hupload : uploadedLights (lights ++ extra) = uploadedLights lights := by
    unfold uploadedLights
    rw [List.take_append_of_le_length h]
  have hnum : min (lights ++ extra).length MAX_SHADOW_CASTING_LIGHTS
      = min lights.length MAX_SHADOW_CASTING_LIGHTS := by
    rw [List.length_append]
    omega
  unfold lightingPassColor
  rw [hupload, hnum]

/-- Default lighting uniforms mirroring the default ShadowParams and
MaterialParams uploads (used by the witness). -/
def defaultLightingUniforms : LightingUniforms where
  shadowBias := 1/200
  shadowNormalBias := 1/50
  shadowPCFSamples := 2
  shadowIntensity := 7/10
  enablePCF := true
  shadowFarPlane := 50
  enableQuantization := true
  diffuseQuantizationBands := 5
  specularThreshold1 := 3/10
  specularThreshold2 := 7/10
  viewPos := ⟨0, 0, 0⟩

/-- A neutral G-buffer pixel for the witness. -/
def witnessGBuffer : GBufferData :=
  ⟨⟨1, 1, 1⟩, 0, ⟨0, 0, 1⟩, 0, ⟨0, 0, 0⟩, 32, 1, 0⟩

/-- Witness for the eight-light ceiling claim: with exactly 8 lights in
the registry, appending a ninth bright light leaves the lit color of a
concrete pixel unchanged. -/
theorem lights_beyond_eight_no_contribution_witness :
    lightingPassColor (List.replicate 8 defaultLight ++ [createPointLight ⟨0, 0, 1⟩ ⟨1, 1, 1⟩ 100])
        defaultLightingUniforms (fun _ _ => 1) (fun _ _ => 1) (fun _ => 1) (fun _ => (2048, 2048))
        witnessGBuffer ⟨0, 0, 0, 0⟩ ⟨0, 0, 1⟩
      = lightingPassColor (List.replicate 8 defaultLight)
        defaultLightingUniforms (fun _ _ => 1) (fun _ _ => 1) (fun _ => 1) (fun _ => (2048, 2048))
        witnessGBuffer ⟨0, 0, 0, 0⟩ ⟨0, 0, 1⟩ :=
  (lights_beyond_eight_no_contribution (List.replicate 8 defaultLight)
    [createPointLight ⟨0, 0, 1⟩ ⟨1, 1, 1⟩ 100] (by simp [MAX_SHADOW_CASTING_LIGHTS])
    defaultLightingUniforms (fun _ _ => 1) (fun _ _ => 1) (fun _ => 1) (fun _ => (2048, 2048))
    witnessGBuffer ⟨0, 0, 0, 0⟩ ⟨0, 0, 1⟩).1

/-! ### Light-space matrices for spot shadows (claim C9) -/

/-- glm::radians. -/
def glslRadians (x : ℝ) : ℝ := x * Real.pi / 180

/-- glm::degrees. -/
def glslDegrees (x : ℝ) : ℝ := x * 180 / Real.pi

/-- glm::perspective (right-handed, [-1,1] clip depth), as the
row-major matrix acting on column vectors. -/
def glmPerspective (fovy aspect zNear zFar : ℝ) : Mat4 :=
  let tanHalf := Real.tan (fovy / 2)
  !![1 / (aspect * tanHalf), 0, 0, 0;
     0, 1 / tanHalf, 0, 0;
     0, 0, -(zFar + zNear) / (zFar - zNear), -(2 * zFar * zNear) / (zFar - zNear);
     0, 0, -1, 0]

/-- glm::ortho (right-handed, [-1,1] clip depth). -/
def glmOrtho (left right bottom top zNear zFar : ℝ) : Mat4 :=
  !![2 / (right - left), 0, 0, -(right + left) / (right - left);
     0, 2 / (top - bottom), 0, -(top + bottom) / (top - bottom);
     0, 0, -2 / (zFar - zNear), -(zFar + zNear) / (zFar - zNear);
     0, 0, 0, 1]

/-- glm::lookAt (right-handed). -/
def glmLookAt (eye center up : Vec3) : Mat4 :=
  let f := normalizeV (subV center eye)
  let s := normalizeV (crossV f up)
  let u := crossV s f
  !![s.x, s.y, s.z, -(dotV s eye);
     u.x, u.y, u.z, -(dotV u eye);
     -f.x, -f.y, -f.z, dotV f eye;
     0, 0, 0, 1]

/-- The up-vector degeneracy handling shared by `renderSpotShadow` and
the spot branch of `calculateLightSpaceMatrix`: world-up unless the
light direction is nearly parallel to it, then world-X. -/
def shadowUpVector (direction : Vec3) : Vec3 :=
  if |dotV (normalizeV direction) ⟨0, 1, 0⟩| > 99/100 then ⟨1, 0, 0⟩ else ⟨0, 1, 0⟩

/-- The light-space matrix `Renderer::renderSpotShadow` stores
(Renderer.cpp:385-413): perspective with field-of-view
`2*acos(cutOff)` degrees (no clamp), looking from the light position
toward position + direction. -/
def renderSpotShadowMatrix (light : Light) (p : ShadowParams) : Mat4 :=
  let spotAngle := glslDegrees (Real.arccos light.cutOff) * 2
  let lightProjection := glmPerspective (glslRadians spotAngle) 1 p.nearPlane p.farPlane
  let lightTarget := addV light.position light.direction
  let up := shadowUpVector light.direction
  lightProjection * glmLookAt light.position lightTarget up

/-- `Renderer::calculateLightSpaceMatrix` (Renderer.cpp:2258-2290):
the spot branch derives the field-of-view from `outerCutOff` and clamps
it below by 1 degree; directional uses the orthographic setup; any
other type yields the identity. -/
def calculateLightSpaceMatrix (light : Light) (p : ShadowParams) : Mat4 :=
  if light.type = .directional then
    let size := p.orthoSize
    let lightProjection := glmOrtho (-size) size (-size) size p.nearPlane p.farPlane
    let lightDir := normalizeV light.direction
    let lightPos := smulV (-(p.farPlane * (1/2))) lightDir
    let up := shadowUpVector light.direction
    lightProjection * glmLookAt lightPos ⟨0, 0, 0⟩ up
  else if light.type = .spot then
    let fov := glslDegrees (Real.arccos light.outerCutOff) * 2
    let lightProjection := glmPerspective (glslRadians (max 1 fov)) 1 p.nearPlane p.farPlane
    let up := shadowUpVector light.direction
    lightProjection * glmLookAt light.position (addV light.position light.direction) up
  else 1

/-- A spot light with unequal cone cosines whose two derived
fields-of-view both come out as 1 degree: the inner cone is 0.5
degrees half-angle (fov 1), the outer 0.25 degrees (fov 0.5, clamped
up to 1). -/
def clampCounterLight : Light :=
  { defaultLight with
    type := .spot
    position := ⟨0, 0, 0⟩
    direction := ⟨0, 0, -1⟩
    cutOff := Real.cos (glslRadians (1/2))
    outerCutOff := Real.cos (glslRadians (1/4)) }

lemma glslDegrees_glslRadians (x : ℝ) : glslDegrees (glslRadians x) = x := by
  unfold glslDegrees glslRadians
  field_simp

lemma glslRadians_mem_pi (x : ℝ) (h0 : 0 ≤ x) (h1 : x ≤ 180) :
    0 ≤ glslRadians x ∧ glslRadians x ≤ Real.pi := by
  unfold glslRadians
  constructor
  · positivity
  · rw [div_le_iff₀ (by norm_num)]
    nlinarith [Real.pi_pos]

/-- Claim C9 as stated is false: there is a spot light with
`cutOff ≠ outerCutOff` for which the two light-space-matrix
computations agree exactly, because `calculateLightSpaceMatrix` clamps
its field-of-view below by 1 degree while `renderSpotShadow` does not:
with cone angles 0.5 and 0.25 degrees both field-of-views are 1 degree. -/
theorem spot_matrix_claim_counterexample :
    clampCounterLight.cutOff ≠ clampCounterLight.outerCutOff ∧
    renderSpotShadowMatrix clampCounterLight defaultShadowParams
      = calculateLightSpaceMatrix clampCounterLight defaultShadowParams := by
  have hc : clampCounterLight.cutOff = Real.cos (glslRadians (1/2)) := rfl
  have ho : clampCounterLight.outerCutOff = Real.cos (glslRadians (1/4)) := rfl
  have hr2 := glslRadians_mem_pi (1/2) (by norm_num) (by norm_num)
  have hr4 := glslRadians_mem_pi (1/4) (by norm_num) (by norm_num)
  constructor
  · rw [hc, ho]
    intro habs
    have hlt : Real.cos (glslRadians (1/2)) < Real.cos (glslRadians (1/4)) := by
      refine Real.cos_lt_cos_of_nonneg_of_le_pi hr4.1 hr2.2 ?_
      unfold glslRadians
      nlinarith [Real.pi_pos]
    exact absurd habs (ne_of_lt hlt)
  · have hfov1 : glslDegrees (Real.arccos clampCounterLight.cutOff) * 2 = 1 := by
      rw [hc, Real.arccos_cos hr2.1 hr2.2, glslDegrees_glslRadians]
      norm_num
    have hfov2 : max 1 (glslDegrees (Real.arccos clampCounterLight.outerCutOff) * 2) = 1 := by
      rw [ho, Real.arccos_cos hr4.1 hr4.2, glslDegrees_glslRadians]
      norm_num
    have htype1 : clampCounterLight.type ≠ LightType.directional := by
      intro habs
      exact absurd habs (by decide)
    have htype2 : clampCounterLight.type = LightType.spot := rfl
    unfold calculateLightSpaceMatrix renderSpotShadowMatrix
    rw [if_neg htype1, if_pos htype2]
    simp only [hfov1, hfov2]

lemma normalizeV_of_unit (v : Vec3) (h : dotV v v = 1) : normalizeV v = v := by
  have hl : lengthV v = 1 := by rw [lengthV, h, Real.sqrt_one]
  unfold normalizeV
  rw [hl]
  simp only [div_one]

lemma vec3_ext (a b : Vec3) (hx : a.x = b.x) (hy : a.y = b.y) (hz : a.z = b.z) :
    a = b := by
  cases a
  cases b
  simp only at hx hy hz
  rw [hx, hy, hz]

lemma subV_addV_cancel (a b : Vec3) : subV (addV a b) a = b := by
  refine vec3_ext _ _ ?_ ?_ ?_ <;> simp [subV, addV]

lemma perspective_mul_row0 (fovy aspect zNear zFar : ℝ) (V : Mat4) (j : Fin 4) :
    (glmPerspective fovy aspect zNear zFar * V) 0 j
      = 1 / (aspect * Real.tan (fovy / 2)) * V 0 j := by
  unfold glmPerspective
  simp [Matrix.mul_apply, Fin.sum_univ_four, Matrix.cons_val_zero, Matrix.cons_val_one,
    Matrix.head_cons, Matrix.cons_val_two, Matrix.cons_val_three, Matrix.head_fin_const]

lemma glmLookAt_row0 (eye center up : Vec3) :
    glmLookAt eye center up 0 0
        = (normalizeV (crossV (normalizeV (subV center eye)) up)).x ∧
      glmLookAt eye center up 0 1
        = (normalizeV (crossV (normalizeV (subV center eye)) up)).y ∧
      glmLookAt eye center up 0 2
        = (normalizeV (crossV (normalizeV (subV center eye)) up)).z := by
  unfold glmLookAt
  refine ⟨?_, ?_, ?_⟩ <;>
    simp [Matrix.cons_val_zero, Matrix.cons_val_one, Matrix.head_cons, Matrix.cons_val_two,
      Matrix.head_fin_const]

lemma dotV_worldUp (v : Vec3) : dotV v ⟨0, 1, 0⟩ = v.y := by
  simp [dotV]

/-- The degeneracy-handled up vector is never parallel to a unit light
direction: the cross product keeps a nonzero component. -/
lemma crossV_shadowUp_ne (dir : Vec3) (hunit : dotV dir dir = 1) :
    (crossV dir (shadowUpVector dir)).x ≠ 0 ∨
      (crossV dir (shadowUpVector dir)).y ≠ 0 ∨
      (crossV dir (shadowUpVector dir)).z ≠ 0 := by
  have hnorm : normalizeV dir = dir := normalizeV_of_unit dir hunit
  by_cases hy : |dotV (normalizeV dir) ⟨0, 1, 0⟩| > 99/100
  · have hup : shadowUpVector dir = ⟨1, 0, 0⟩ := by
      rw [shadowUpVector, if_pos hy]
    have hyy : dir.y ≠ 0 := by
      rw [hnorm, dotV_worldUp] at hy
      intro habs
      rw [habs] at hy
      norm_num at hy
    right; right
    rw [hup]
    simp only [crossV]
    intro habs
    apply hyy
    nlinarith [habs]
  · have hup : shadowUpVector dir = ⟨0, 1, 0⟩ := by
      rw [shadowUpVector, if_neg hy]
    rw [hnorm, dotV_worldUp] at hy
    have hyle : |dir.y| ≤ 99/100 := le_of_not_lt hy
    rw [hup]
    simp only [crossV]
    by_contra habs
    push_neg at habs
    have hx0 : dir.x = 0 := by nlinarith [habs.2.2]
    have hz0 : dir.z = 0 := by nlinarith [habs.1]
    have hy1 : dir.y * dir.y = 1 := by
      have := hunit
      simp only [dotV] at this
      nlinarith
    rcases mul_self_eq_one_iff.1 hy1 with h1 | h1 <;>
      rw [h1] at hyle <;> norm_num at hyle

lemma normalizeV_ne_zero_component (w : Vec3)
    (h : w.x ≠ 0 ∨ w.y ≠ 0 ∨ w.z ≠ 0) :
    (normalizeV w).x ≠ 0 ∨ (normalizeV w).y ≠ 0 ∨ (normalizeV w).z ≠ 0 := by
  have hdot : 0 < dotV w w := by
    simp only [dotV]
    rcases h with h | h | h
    · nlinarith [mul_self_nonneg w.y, mul_self_nonneg w.z, mul_self_pos.mpr h]
    · nlinarith [mul_self_nonneg w.x, mul_self_nonneg w.z, mul_self_pos.mpr h]
    · nlinarith [mul_self_nonneg w.x, mul_self_nonneg w.y, mul_self_pos.mpr h]
  have hL : lengthV w ≠ 0 := ne_of_gt (Real.sqrt_pos.2 hdot)
  rcases h with h | h | h
  · exact Or.inl (div_ne_zero h hL)
  · exact Or.inr (Or.inl (div_ne_zero h hL))
  · exact Or.inr (Or.inr (div_ne_zero h hL))

/-- Claim C9 (amended): the two spot light-space-matrix computations
are inequivalent — `renderSpotShadow` derives the field-of-view as
`2*acos(cutOff)` while `calculateLightSpaceMatrix` derives it as
`max(1°, 2*acos(outerCutOff))` — and for every spot light (unit
direction, cone cosines in (0,1)) whose two derived field-of-view
values differ (which, because of the 1-degree clamp, is the condition
the counterexample forces instead of plain `cutOff ≠ outerCutOff`),
the two functions produce different view-projection matrices. -/
theorem spot_matrices_differ (light : Light) (p : ShadowParams)
    (hspot : light.type = LightType.spot)
    (hc0 : 0 < light.cutOff) (hc1 : light.cutOff < 1)
    (ho0 : 0 < light.outerCutOff)
    (hunit : dotV light.direction light.direction = 1)
    (hfov : glslDegrees (Real.arccos light.cutOff) * 2
      ≠ max 1 (glslDegrees (Real.arccos light.outerCutOff) * 2)) :
    renderSpotShadowMatrix light p ≠ calculateLightSpaceMatrix light p := by
  intro heq
  have hpi := Real.pi_pos
  set dir := light.direction with hdir
  set V := glmLookAt light.position (addV light.position dir) (shadowUpVector dir) with hV
  set fov1 := glslDegrees (Real.arccos light.cutOff) * 2 with hfov1
  set fov2 := max 1 (glslDegrees (Real.arccos light.outerCutOff) * 2) with hfov2
  have htype1 : light.type ≠ LightType.directional := by
    rw [hspot]
    intro hh
    cases hh
  have heq2 : glmPerspective (glslRadians fov1) 1 p.nearPlane p.farPlane * V
      = glmPerspective (glslRadians fov2) 1 p.nearPlane p.farPlane * V := by
    unfold renderSpotShadowMatrix calculateLightSpaceMatrix at heq
    rw [if_neg htype1, if_pos hspot] at heq
    exact heq
  -- field-of-view bounds
  have ha1 : 0 < Real.arccos light.cutOff := Real.arccos_pos.2 hc1
  have ha2 : Real.arccos light.cutOff < Real.pi / 2 := Real.arccos_lt_pi_div_two.2 hc0
  have hb1 : 0 ≤ Real.arccos light.outerCutOff := Real.arccos_nonneg _
  have hb2 : Real.arccos light.outerCutOff < Real.pi / 2 := Real.arccos_lt_pi_div_two.2 ho0
  have hrw1 : fov1 = Real.arccos light.cutOff * 360 / Real.pi := by
    rw [hfov1]
    unfold glslDegrees
    ring
  have hrw2 : glslDegrees (Real.arccos light.outerCutOff) * 2
      = Real.arccos light.outerCutOff * 360 / Real.pi := by
    unfold glslDegrees
    ring
  have hfov1pos : 0 < fov1 := by
    rw [hrw1]
    exact div_pos (by nlinarith) hpi
  have hfov1lt : fov1 < 180 := by
    rw [hrw1, div_lt_iff₀ hpi]
    nlinarith
  have hfov2pos : 0 < fov2 := lt_of_lt_of_le one_pos (le_max_left _ _)
  have hfov2lt : fov2 < 180 := by
    rw [hfov2]
    refine max_lt (by norm_num) ?_
    rw [hrw2, div_lt_iff₀ hpi]
    nlinarith
  -- half angles lie strictly inside (0, pi/2)
  have hhalf : ∀ fov : ℝ, 0 < fov → fov < 180 →
      0 < glslRadians fov / 2 ∧ glslRadians fov / 2 < Real.pi / 2 := by
    intro fov h0 h1
    unfold glslRadians
    constructor
    · positivity
    · rw [div_lt_div_iff₀ (by norm_num) (by norm_num)]
      nlinarith
  have hh1 := hhalf fov1 hfov1pos hfov1lt
  have hh2 := hhalf fov2 hfov2pos hfov2lt
  have ht1 : 0 < Real.tan (glslRadians fov1 / 2) :=
    Real.tan_pos_of_pos_of_lt_pi_div_two hh1.1 hh1.2
  have ht2 : 0 < Real.tan (glslRadians fov2 / 2) :=
    Real.tan_pos_of_pos_of_lt_pi_div_two hh2.1 hh2.2
  -- a nonzero entry of row 0 of the shared view matrix
  have hsub : subV (addV light.position dir) light.position = dir := subV_addV_cancel _ _
  obtain ⟨h00, h01, h02⟩ :=
    glmLookAt_row0 light.position (addV light.position dir) (shadowUpVector dir)
  rw [hsub, normalizeV_of_unit dir hunit] at h00 h01 h02
  have hcomp := normalizeV_ne_zero_component _ (crossV_shadowUp_ne dir hunit)
  have hVj : ∃ j : Fin 4, V 0 j ≠ 0 := by
    rcases hcomp with h | h | h
    · exact ⟨0, by rw [hV, h00]; exact h⟩
    · exact ⟨1, by rw [hV, h01]; exact h⟩
    · exact ⟨2, by rw [hV, h02]; exact h⟩
  obtain ⟨j, hVne⟩ := hVj
  -- equate the (0, j) entries of the two products
  have hentry : (glmPerspective (glslRadians fov1) 1 p.nearPlane p.farPlane * V) 0 j
      = (glmPerspective (glslRadians fov2) 1 p.nearPlane p.farPlane * V) 0 j := by
    rw [heq2]
  rw [perspective_mul_row0, perspective_mul_row0] at hentry
  have hA : 1 / (1 * Real.tan (glslRadians fov1 / 2))
      = 1 / (1 * Real.tan (glslRadians fov2 / 2)) :=
    mul_right_cancel₀ hVne hentry
  have htan : Real.tan (glslRadians fov1 / 2) = Real.tan (glslRadians fov2 / 2) := by
    rw [one_mul, one_mul] at hA
    field_simp at hA
    linarith
  have hmem1 : glslRadians fov1 / 2 ∈ Set.Ioo (-(Real.pi / 2)) (Real.pi / 2) :=
    ⟨by linarith [hh1.1], hh1.2⟩
  have hmem2 : glslRadians fov2 / 2 ∈ Set.Ioo (-(Real.pi / 2)) (Real.pi / 2) :=
    ⟨by linarith [hh2.1], hh2.2⟩
  have hhalfeq : glslRadians fov1 / 2 = glslRadians fov2 / 2 :=
    Real.injOn_tan hmem1 hmem2 htan
  have hfoveq : fov1 = fov2 := by
    unfold glslRadians at hhalfeq
    have hpi2 : Real.pi ≠ 0 := ne_of_gt hpi
    field_simp at hhalfeq
    rcases hhalfeq with h | h
    · exact h
    · exact absurd h hpi2
  exact hfov hfoveq

/-- A spot light with 30-degree and 45-degree cone half-angles (as
cosines), used to witness the matrix-inequivalence theorem. -/
def fovWitnessLight : Light :=
  { defaultLight with
    type := .spot
    position := ⟨0, 0, 0⟩
    direction := ⟨0, 0, -1⟩
    cutOff := Real.cos (glslRadians 30)
    outerCutOff := Real.cos (glslRadians 45) }

/-- Witness for the matrix-inequivalence theorem: the two spot
light-space matrices differ at a concrete light (fields of view 60 and
90 degrees). -/
theorem spot_matrices_differ_witness :
    renderSpotShadowMatrix fovWitnessLight defaultShadowParams
      ≠ calculateLightSpaceMatrix fovWitnessLight defaultShadowParams := by
  have hpi := Real.pi_pos
  have h30 : (0 : ℝ) ≤ glslRadians 30 ∧ glslRadians 30 ≤ Real.pi :=
    glslRadians_mem_pi 30 (by norm_num) (by norm_num)
  have h45 : (0 : ℝ) ≤ glslRadians 45 ∧ glslRadians 45 ≤ Real.pi :=
    glslRadians_mem_pi 45 (by norm_num) (by norm_num)
  have h30pos : (0 : ℝ) < glslRadians 30 := by
    unfold glslRadians
    positivity
  have h45pos : (0 : ℝ) < glslRadians 45 := by
    unfold glslRadians
    positivity
  have hcos30pos : 0 < Real.cos (glslRadians 30) := by
    refine Real.cos_pos_of_mem_Ioo ⟨by linarith, ?_⟩
    unfold glslRadians
    nlinarith
  have hcos45pos : 0 < Real.cos (glslRadians 45) := by
    refine Real.cos_pos_of_mem_Ioo ⟨by linarith, ?_⟩
    unfold glslRadians
    nlinarith
  have hcos30lt : Real.cos (glslRadians 30) < 1 := by
    have := Real.cos_lt_cos_of_nonneg_of_le_pi le_rfl h30.2 h30pos
    rwa [Real.cos_zero] at this
  refine spot_matrices_differ fovWitnessLight defaultShadowParams rfl
    hcos30pos hcos30lt hcos45pos (by norm_num [dotV, fovWitnessLight, defaultLight]) ?_
  show glslDegrees (Real.arccos (Real.cos (glslRadians 30))) * 2
    ≠ max 1 (glslDegrees (Real.arccos (Real.cos (glslRadians 45))) * 2)
  rw [Real.arccos_cos h30.1 h30.2, Real.arccos_cos h45.1 h45.2,
    glslDegrees_glslRadians, glslDegrees_glslRadians]
  norm_num

end

end HybridToon
